import Mathlib

/-!
A shallow embedding of the pygmsh code-generation layer
(`src/pygmsh/geometry.py` and `src/pygmsh/opencascade/geometry.py`).

The Python classes keep a mutable statement log (`_GMSH_CODE`, a list of
strings) and a handful of integer ID counters.  We model a session as an
explicit state record; every builder method becomes a function from the
state (plus its arguments) to a new state and a result.  Python exceptions
(`raise`, failing `assert`, `IndexError`) become `Except.error` results;
mutations performed before the exception is raised are kept in the
returned state, exactly as in Python where the object is mutated in place.

Statements are modelled as a structured type `Stmt`, one constructor per
format string appended by the source, together with a `render` function
reproducing the Python formatting; the serialized script (`get_code`) is
the rendered statements joined by a newline.  Numeric payloads are kept as
rationals (the claims under study never depend on floating-point rounding,
only on statement structure, counts and names).

The entity classes (`Point`, `Line`, `LineLoop`, `EllipseArc`,
`PlaneSurface`, `Circle`, the OpenCASCADE `LineBase`/`SurfaceBase`/
`VolumeBase`) are not under `src/`; they are modelled from the spec where
so marked.
-/

/-- Decimal digit character for a digit value, the embedding of how
Python renders one digit of an integer. -/
def digitCh (d : Nat) : Char :=
  match d with
  | 0 => '0'
  | 1 => '1'
  | 2 => '2'
  | 3 => '3'
  | 4 => '4'
  | 5 => '5'
  | 6 => '6'
  | 7 => '7'
  | 8 => '8'
  | 9 => '9'
  | _ => '*'

/-- Fueled computation of the decimal digit characters of a natural
number, most significant first (structural recursion so that concrete
values reduce definitionally; the fuel is immaterial once it exceeds the
number, see the stability lemma below). -/
def decCharsAux : Nat → Nat → List Char
  | 0, _ => []
  | fuel + 1, n =>
      if n < 10 then [digitCh n]
      else decCharsAux fuel (n / 10) ++ [digitCh (n % 10)]

/-- Decimal digit characters of a natural number, most significant
first; the embedding of how Python renders an integer with the d
conversion. -/
def decChars (n : Nat) : List Char := decCharsAux (n + 1) n

/-- Decimal rendering of a natural number, as Python `'%d' % n`. -/
def natStr (n : Nat) : String := String.mk (decChars n)

/-- Rendering of a rational scalar, standing in for Python rendering of a
float with the s or r conversions. -/
def ratStr (q : Rat) : String := toString q

/-- A 3-vector of scalars (Python lists or numpy arrays of length 3). -/
abbrev Vec3 : Type := Rat × Rat × Rat

/-- A 3x3 matrix as three rows (numpy array). -/
abbrev Mat3 : Type := Vec3 × Vec3 × Vec3

/-- Componentwise vector addition (numpy `+`). -/
def vadd (a b : Vec3) : Vec3 :=
  (a.1 + b.1, a.2.1 + b.2.1, a.2.2 + b.2.2)

/-- Dot product of two 3-vectors. -/
def vdot (a b : Vec3) : Rat :=
  a.1 * b.1 + a.2.1 * b.2.1 + a.2.2 * b.2.2

/-- Matrix-vector product (numpy `dot`). -/
def matVec (m : Mat3) (v : Vec3) : Vec3 :=
  (vdot m.1 v, vdot m.2.1 v, vdot m.2.2 v)

/-- Columns of a matrix, used to form a matrix-matrix product. -/
def matCols (m : Mat3) : Mat3 :=
  ((m.1.1, m.2.1.1, m.2.2.1),
   (m.1.2.1, m.2.1.2.1, m.2.2.2.1),
   (m.1.2.2, m.2.1.2.2, m.2.2.2.2))

/-- Matrix-matrix product (numpy `dot` on two 3x3 arrays). -/
def matMul (a b : Mat3) : Mat3 :=
  let c := matCols b
  ((vdot a.1 c.1, vdot a.1 c.2.1, vdot a.1 c.2.2),
   (vdot a.2.1 c.1, vdot a.2.1 c.2.1, vdot a.2.1 c.2.2),
   (vdot a.2.2 c.1, vdot a.2.2 c.2.1, vdot a.2.2 c.2.2))

/-- The 3x3 identity matrix (`numpy.eye(3)`), the default rotation. -/
def eye3 : Mat3 := ((1, 0, 0), (0, 1, 0), (0, 0, 1))

/-- The zero 3-vector, the default translation. -/
def zero3 : Vec3 := (0, 0, 0)

/-- Rendering of the three components of a vector joined by commas, as the
Python tuple splat into three s conversions. -/
def vec3Str (v : Vec3) : String :=
  ratStr v.1 ++ "," ++ ratStr v.2.1 ++ "," ++ ratStr v.2.2

/-- Modelled from the spec: the version metadata (`__about__.py` is not
under `src/` and is explicitly out of scope); a fixed placeholder. -/
def pygmshVersion : String := "0.0.0"

/-- One statement of the generated Gmsh script: one constructor per format
string appended to `_GMSH_CODE` by the source.  Constructors marked
entity-code model the `code` attribute of entity classes that are not
under `src/`. -/
inductive Stmt where
  /-- File header (`Geometry._header`). -/
  | header (version : String)
  /-- `SetFactory("OpenCASCADE");` (opencascade `Geometry.__init__`). -/
  | setFactory
  /-- `Mesh.CharacteristicLengthMin = ...;` (opencascade init). -/
  | charLengthMin (v : Rat)
  /-- `Mesh.CharacteristicLengthMax = ...;` (opencascade init). -/
  | charLengthMax (v : Rat)
  /-- Entity-code, modelled from the spec: a point definition. -/
  | point (name : String) (x : Vec3) (lcar : Rat)
  /-- Entity-code, modelled from the spec: a straight line definition. -/
  | line (name a b : String)
  /-- Entity-code, modelled from the spec: a line-loop definition from
  signed curve references. -/
  | lineLoop (name : String) (curves : List String)
  /-- Entity-code, modelled from the spec: an ellipse-arc definition. -/
  | ellipseArc (name : String) (points : List String)
  /-- Entity-code, modelled from the spec: a circle-arc definition (one
  curve of a `Circle` entity). -/
  | circleArc (name : String) (points : List String)
  /-- Entity-code, modelled from the spec: a plane surface bounded by a
  line loop, with optional hole loops. -/
  | planeSurface (name : String) (loops : List String)
  /-- `name = news;` (`add_ruled_surface`, `add_compound_surface`). -/
  | assignNews (name : String)
  /-- `Ruled Surface(name) = {ll};` (`add_ruled_surface`). -/
  | ruledSurface (name ll : String)
  /-- `Compound Surface(name) = {s1,...};` (`add_compound_surface`). -/
  | compoundSurface (name : String) (surfaces : List String)
  /-- `name = newsl;` (`add_surface_loop`). -/
  | assignNewsl (name : String)
  /-- `Surface Loop(name) = {s1,...};` (`add_surface_loop`). -/
  | surfaceLoop (name : String) (surfaces : List String)
  /-- `name = newv;` (`add_volume`, `add_compound_volume`). -/
  | assignNewv (name : String)
  /-- `Volume(name) = sl;` (`add_volume`). -/
  | volume (name sl : String)
  /-- `Compound Volume(name) = {v1,...};` (`add_compound_volume`). -/
  | compoundVolume (name : String) (volumes : List String)
  /-- `Physical Point(label) = p;` (`add_physical_point`). -/
  | physicalPoint (label p : String)
  /-- `Physical Line(label) = l;` (`add_physical_line`). -/
  | physicalLine (label l : String)
  /-- `Physical Surface(label) = s;` (`add_physical_surface`). -/
  | physicalSurface (label s : String)
  /-- `Physical Volume(label) = v;` (`add_physical_volume`). -/
  | physicalVolume (label v : String)
  /-- Extrusion with translation and rotation (`extrude`, first branch). -/
  | extrudeFull (name : String) (t r p : Vec3) (angle ent : String)
  /-- Extrusion with translation only (`extrude`, second branch). -/
  | extrudeTrans (name : String) (t : Vec3) (ent : String)
  /-- Extrusion with rotation only (`extrude`, third branch). -/
  | extrudeRot (name : String) (r p : Vec3) (angle ent : String)
  /-- `name = newf;` (`add_boundary_layer`, `add_background_field`). -/
  | assignNewf (name : String)
  /-- `Field[name] = value;` (boundary layer or aggregation type). -/
  | fieldAssign (name value : String)
  /-- `Field[name].option = {list};` (boundary-layer list options). -/
  | fieldListOption (name opt : String) (items : List String)
  /-- `Field[name].option= value;` (boundary-layer scalar options). -/
  | fieldScalarOption (name opt : String) (value : Rat)
  /-- `Field[name].FieldsList = {f1, f2};` (`add_background_field`). -/
  | fieldsList (name : String) (fields : List String)
  /-- `Background Field = name;` (`add_background_field`). -/
  | backgroundField (name : String)
  /-- `name[] = {e1,...};` (`add_array`). -/
  | arrayAssign (name : String) (entries : List String)
  /-- `// text` (`add_comment`). -/
  | comment (text : String)
  /-- A raw statement string (`add_raw_code`). -/
  | raw (text : String)
  /-- OpenCASCADE translation extrusion (opencascade `extrude`). -/
  | ocExtrude (name : String) (axis : Vec3) (ent : String)
  /-- OpenCASCADE boolean operation (`_boolean_operation`). -/
  | booleanOp (name op dim : String) (inputs tools : List String)
      (del : Bool)
deriving DecidableEq

/-- Comma join, Python `','.join(...)`. -/
def commaJoin (l : List String) : String := String.intercalate "," l

/-- Rendering of one statement: the exact Python format strings of the
source (braces written as escapes). -/
def Stmt.render : Stmt → String
  | .header v => "// This code was created by PyGmsh v" ++ v ++ "."
  | .setFactory => "SetFactory(\"OpenCASCADE\");"
  | .charLengthMin v => "Mesh.CharacteristicLengthMin = " ++ ratStr v ++ ";"
  | .charLengthMax v => "Mesh.CharacteristicLengthMax = " ++ ratStr v ++ ";"
  | .point name x lcar =>
      name ++ " = newp;\nPoint(" ++ name ++ ") = \x7b" ++ ratStr x.1 ++
        ", " ++ ratStr x.2.1 ++ ", " ++ ratStr x.2.2 ++ ", " ++
        ratStr lcar ++ "\x7d;"
  | .line name a b =>
      name ++ " = newl;\nLine(" ++ name ++ ") = \x7b" ++ a ++ ", " ++ b ++
        "\x7d;"
  | .lineLoop name curves =>
      name ++ " = newll;\nLine Loop(" ++ name ++ ") = \x7b" ++
        commaJoin curves ++ "\x7d;"
  | .ellipseArc name points =>
      name ++ " = newl;\nEllipse(" ++ name ++ ") = \x7b" ++
        commaJoin points ++ "\x7d;"
  | .circleArc name points =>
      name ++ " = newl;\nCircle(" ++ name ++ ") = \x7b" ++
        commaJoin points ++ "\x7d;"
  | .planeSurface name loops =>
      name ++ " = news;\nPlane Surface(" ++ name ++ ") = \x7b" ++
        commaJoin loops ++ "\x7d;"
  | .assignNews name => name ++ " = news;"
  | .ruledSurface name ll =>
      "Ruled Surface(" ++ name ++ ") = \x7b" ++ ll ++ "\x7d;"
  | .compoundSurface name surfaces =>
      "Compound Surface(" ++ name ++ ") = \x7b" ++ commaJoin surfaces ++
        "\x7d;"
  | .assignNewsl name => name ++ " = newsl;"
  | .surfaceLoop name surfaces =>
      "Surface Loop(" ++ name ++ ") = \x7b" ++ commaJoin surfaces ++
        "\x7d;"
  | .assignNewv name => name ++ " = newv;"
  | .volume name sl => "Volume(" ++ name ++ ") = " ++ sl ++ ";"
  | .compoundVolume name volumes =>
      "Compound Volume(" ++ name ++ ") = \x7b" ++ commaJoin volumes ++
        "\x7d;"
  | .physicalPoint label p => "Physical Point(" ++ label ++ ") = " ++ p ++ ";"
  | .physicalLine label l => "Physical Line(" ++ label ++ ") = " ++ l ++ ";"
  | .physicalSurface label s =>
      "Physical Surface(" ++ label ++ ") = " ++ s ++ ";"
  | .physicalVolume label v =>
      "Physical Volume(" ++ label ++ ") = " ++ v ++ ";"
  | .extrudeFull name t r p angle ent =>
      name ++ "[] = Extrude\x7b\x7b" ++ vec3Str t ++ "\x7d, \x7b" ++
        vec3Str r ++ "\x7d, \x7b" ++ vec3Str p ++ "\x7d, " ++ angle ++
        "\x7d\x7b" ++ ent ++ ";\x7d;"
  | .extrudeTrans name t ent =>
      name ++ "[] = Extrude\x7b" ++ vec3Str t ++ "\x7d\x7b" ++ ent ++
        ";\x7d;"
  | .extrudeRot name r p angle ent =>
      name ++ "[] = Extrude\x7b\x7b" ++ vec3Str r ++ "\x7d, \x7b" ++
        vec3Str p ++ "\x7d, " ++ angle ++ "\x7d\x7b" ++ ent ++ ";\x7d;"
  | .assignNewf name => name ++ " = newf;"
  | .fieldAssign name value => "Field[" ++ name ++ "] = " ++ value ++ ";"
  | .fieldListOption name opt items =>
      "Field[" ++ name ++ "]." ++ opt ++ " = \x7b" ++ commaJoin items ++
        "\x7d;"
  | .fieldScalarOption name opt value =>
      "Field[" ++ name ++ "]." ++ opt ++ "= " ++ ratStr value ++ ";"
  | .fieldsList name fields =>
      "Field[" ++ name ++ "].FieldsList = \x7b" ++
        String.intercalate ", " fields ++ "\x7d;"
  | .backgroundField name => "Background Field = " ++ name ++ ";"
  | .arrayAssign name entries =>
      name ++ "[] = \x7b" ++ commaJoin entries ++ "\x7d;"
  | .comment text => "// " ++ text
  | .raw text => text
  | .ocExtrude name axis ent =>
      name ++ "[] = Extrude\x7b" ++ vec3Str axis ++ "\x7d\x7b" ++ ent ++
        ";\x7d;"
  | .booleanOp name op dim inputs tools del =>
      name ++ "[] = " ++ op ++ "\x7b" ++ dim ++ " \x7b" ++
        commaJoin inputs ++ "\x7d; " ++ (if del then "Delete;" else "") ++
        "\x7d \x7b" ++ dim ++ " \x7b" ++ commaJoin tools ++ "\x7d; " ++
        (if del then "Delete;" else "") ++ "\x7d;"

/-- A modelled entity: its symbolic id and its defining statement(s), the
`id`/`code` attributes of the entity classes.  The entity classes are not
under `src/`; modelled from the spec (Entity Model: "a symbol plus
category-specific payload", "variable assignment from a new-id
pseudo-function").  A `Dummy` reference is an `Ent` with empty code. -/
structure Ent where
  id : String
  code : List Stmt
deriving DecidableEq

/-- Modelled from the spec: negation of an oriented curve reference
(signed curve references in loops), rendered by prefixing a minus sign. -/
def negRef (e : Ent) : Ent := ⟨"-" ++ e.id, []⟩

/-- The built-in `Geometry` session state: the ID counters initialized in
`Geometry.__init__` plus the statement log `_GMSH_CODE`.  The trailing
counters (pointId .. planesurfaceId) are modelled from the spec: the
SymbolAllocator also issues per-category names for point/line/loop/arc/
surface entities (their classes are not under `src/`). -/
structure Geometry where
  surfaceId : Nat
  surfaceloopId : Nat
  volumeId : Nat
  ellipseId : Nat
  extrudeId : Nat
  arrayId : Nat
  fieldId : Nat
  physicalgroupId : Nat
  pointId : Nat
  lineId : Nat
  lineloopId : Nat
  ellipsearcId : Nat
  circlearcId : Nat
  planesurfaceId : Nat
  code : List Stmt
deriving DecidableEq

/-- A fresh built-in session (`Geometry.__init__`): all counters zero and
the log holding only the header. -/
def geoInit : Geometry :=
  { surfaceId := 0, surfaceloopId := 0, volumeId := 0, ellipseId := 0,
    extrudeId := 0, arrayId := 0, fieldId := 0, physicalgroupId := 0,
    pointId := 0, lineId := 0, lineloopId := 0, ellipsearcId := 0,
    circlearcId := 0, planesurfaceId := 0,
    code := [.header pygmshVersion] }

/-- Python `'\\n'.join`: the pieces concatenated with a newline between
consecutive pieces (and nothing appended after the last). -/
def joinNl : List String → String
  | [] => ""
  | [s] => s
  | s :: rest => s ++ "\n" ++ joinNl rest

/-- `Geometry.get_code`: the statements joined by a newline. -/
def Geometry.getCode (g : Geometry) : String :=
  joinNl (g.code.map Stmt.render)

/-- `Geometry.add`: append the entity's defining code to the log and hand
the entity back. -/
def Geometry.add (g : Geometry) (e : Ent) : Geometry × Ent :=
  ({ g with code := g.code ++ e.code }, e)

/-- Modelled from the spec: construction of a `Point` entity (class not
under `src/`): allocate the next point symbol and build its defining
statement. -/
def Geometry.mkPoint (g : Geometry) (x : Vec3) (lcar : Rat) :
    Geometry × Ent :=
  let n := g.pointId + 1
  let name := "p" ++ natStr n
  ({ g with pointId := n }, ⟨name, [.point name x lcar]⟩)

/-- Modelled from the spec: construction of a `Line` entity (class not
under `src/`) between two point references. -/
def Geometry.mkLine (g : Geometry) (a b : Ent) : Geometry × Ent :=
  let n := g.lineId + 1
  let name := "l" ++ natStr n
  ({ g with lineId := n }, ⟨name, [.line name a.id b.id]⟩)

/-- Modelled from the spec: construction of a `LineLoop` entity (class not
under `src/`) from signed curve references. -/
def Geometry.mkLineLoop (g : Geometry) (curves : List Ent) :
    Geometry × Ent :=
  let n := g.lineloopId + 1
  let name := "ll" ++ natStr n
  ({ g with lineloopId := n },
   ⟨name, [.lineLoop name (curves.map Ent.id)]⟩)

/-- Modelled from the spec: construction of an `EllipseArc` entity (class
not under `src/`) from four point references. -/
def Geometry.mkEllipseArc (g : Geometry) (points : List Ent) :
    Geometry × Ent :=
  let n := g.ellipsearcId + 1
  let name := "ea" ++ natStr n
  ({ g with ellipsearcId := n },
   ⟨name, [.ellipseArc name (points.map Ent.id)]⟩)

/-- Modelled from the spec: construction of a `PlaneSurface` entity (class
not under `src/`) from a bounding loop and optional hole loops. -/
def Geometry.mkPlaneSurface (g : Geometry) (lineLoop : Ent)
    (holes : List Ent) : Geometry × Ent :=
  let n := g.planesurfaceId + 1
  let name := "ps" ++ natStr n
  ({ g with planesurfaceId := n },
   ⟨name, [.planeSurface name (lineLoop.id :: holes.map Ent.id)]⟩)

/-- Shorthand for `self.add(Point(...))`. -/
def Geometry.addPoint (g : Geometry) (x : Vec3) (lcar : Rat) :
    Geometry × Ent :=
  let (g1, p) := g.mkPoint x lcar
  g1.add p

/-- Shorthand for `self.add(Line(...))`. -/
def Geometry.addLine (g : Geometry) (a b : Ent) : Geometry × Ent :=
  let (g1, l) := g.mkLine a b
  g1.add l

/-- Shorthand for `self.add(LineLoop(...))`. -/
def Geometry.addLineLoop (g : Geometry) (curves : List Ent) :
    Geometry × Ent :=
  let (g1, ll) := g.mkLineLoop curves
  g1.add ll

/-- Shorthand for `self.add(EllipseArc(...))`. -/
def Geometry.addEllipseArc (g : Geometry) (points : List Ent) :
    Geometry × Ent :=
  let (g1, c) := g.mkEllipseArc points
  g1.add c

/-- Shorthand for `self.add(PlaneSurface(...))`. -/
def Geometry.addPlaneSurface (g : Geometry) (lineLoop : Ent)
    (holes : List Ent) : Geometry × Ent :=
  let (g1, s) := g.mkPlaneSurface lineLoop holes
  g1.add s

/-- `Geometry.add_ruled_surface`: allocate the next surface symbol and
append the two defining statements; the source returns a `Dummy` holding
the name. -/
def Geometry.addRuledSurface (g : Geometry) (lineLoopId : String) :
    Geometry × String :=
  let n := g.surfaceId + 1
  let sname := "surf" ++ natStr n
  ({ g with surfaceId := n,
            code := g.code ++ [.assignNews sname,
                               .ruledSurface sname lineLoopId] },
   sname)

/-- `Geometry.add_compound_surface`. -/
def Geometry.addCompoundSurface (g : Geometry) (surfaces : List String) :
    Geometry × String :=
  let n := g.surfaceId + 1
  let name := "surf" ++ natStr n
  ({ g with surfaceId := n,
            code := g.code ++ [.assignNews name,
                               .compoundSurface name surfaces] },
   name)

/-- `Geometry.add_surface_loop`. -/
def Geometry.addSurfaceLoop (g : Geometry) (surfaces : List String) :
    Geometry × String :=
  let n := g.surfaceloopId + 1
  let name := "surfloop" ++ natStr n
  ({ g with surfaceloopId := n,
            code := g.code ++ [.assignNewsl name,
                               .surfaceLoop name surfaces] },
   name)

/-- `Geometry.add_volume`. -/
def Geometry.addVolume (g : Geometry) (surfaceLoop : String) :
    Geometry × String :=
  let n := g.volumeId + 1
  let name := "vol" ++ natStr n
  ({ g with volumeId := n,
            code := g.code ++ [.assignNewv name,
                               .volume name surfaceLoop] },
   name)

/-- `Geometry.add_compound_volume`: note that it draws from the same
volume counter but renders the name with the `cv` prefix. -/
def Geometry.addCompoundVolume (g : Geometry) (volumes : List String) :
    Geometry × String :=
  let n := g.volumeId + 1
  let name := "cv" ++ natStr n
  ({ g with volumeId := n,
            code := g.code ++ [.assignNewv name,
                               .compoundVolume name volumes] },
   name)

/-- `Geometry._new_physical_group`: bump the physical-group counter; a
missing label becomes the bare decimal number, a given label is quoted. -/
def Geometry.newPhysicalGroup (g : Geometry) (label : Option String) :
    Geometry × String :=
  let n := g.physicalgroupId + 1
  ({ g with physicalgroupId := n },
   match label with
   | none => natStr n
   | some s => "\"" ++ s ++ "\"")

/-- `Geometry.add_physical_point`. -/
def Geometry.addPhysicalPoint (g : Geometry) (point : String)
    (label : Option String) : Geometry :=
  let (g1, lab) := g.newPhysicalGroup label
  { g1 with code := g1.code ++ [.physicalPoint lab point] }

/-- `Geometry.add_physical_line`. -/
def Geometry.addPhysicalLine (g : Geometry) (line : String)
    (label : Option String) : Geometry :=
  let (g1, lab) := g.newPhysicalGroup label
  { g1 with code := g1.code ++ [.physicalLine lab line] }

/-- `Geometry.add_physical_surface`. -/
def Geometry.addPhysicalSurface (g : Geometry) (surface : String)
    (label : Option String) : Geometry :=
  let (g1, lab) := g.newPhysicalGroup label
  { g1 with code := g1.code ++ [.physicalSurface lab surface] }

/-- `Geometry.add_physical_volume`. -/
def Geometry.addPhysicalVolume (g : Geometry) (volume : String)
    (label : Option String) : Geometry :=
  let (g1, lab) := g.newPhysicalGroup label
  { g1 with code := g1.code ++ [.physicalVolume lab volume] }

/-- Rendering of an optional value given to a Python s conversion: a
missing value renders as `None`. -/
def optStr (a : Option String) : String :=
  match a with
  | some s => s
  | none => "None"

/-- `Geometry.extrude`: bump the extrusion counter first (even a failing
call keeps the bump), then branch on which of translation/rotation was
supplied; with neither, the source raises `RuntimeError`; a rotation
without a point on the axis raises `TypeError` when the point is
splatted.  Returns the two indexed results `name[0]`, `name[1]`. -/
def Geometry.extrude (g : Geometry) (entity : String)
    (translationAxis rotationAxis pointOnAxis : Option Vec3)
    (angle : Option String) :
    Geometry × Except String (Ent × Ent) :=
  let g1 := { g with extrudeId := g.extrudeId + 1 }
  let name := "ex" ++ natStr (g.extrudeId + 1)
  match translationAxis, rotationAxis with
  | some t, some r =>
      match pointOnAxis with
      | some p =>
          ({ g1 with
             code := g1.code ++ [.extrudeFull name t r p (optStr angle)
                                   entity] },
           .ok (⟨name ++ "[0]", []⟩, ⟨name ++ "[1]", []⟩))
      | none => (g1, .error "TypeError")
  | some t, none =>
      ({ g1 with code := g1.code ++ [.extrudeTrans name t entity] },
       .ok (⟨name ++ "[0]", []⟩, ⟨name ++ "[1]", []⟩))
  | none, some r =>
      match pointOnAxis with
      | some p =>
          ({ g1 with
             code := g1.code ++ [.extrudeRot name r p (optStr angle)
                                   entity] },
           .ok (⟨name ++ "[0]", []⟩, ⟨name ++ "[1]", []⟩))
      | none => (g1, .error "TypeError")
  | none, none =>
      (g1, .error "Specify at least translation or rotation.")

/-- `Geometry.add_boundary_layer`: one field symbol, one field assignment
and one statement per supplied (truthy) option, in source order.  The
scalar options follow Python truthiness: absent or zero emits nothing. -/
def Geometry.addBoundaryLayer (g : Geometry)
    (edgesList facesList nodesList : List String)
    (anisomax hfar hwallN hwallT rgrowth thickness : Option Rat) :
    Geometry × String :=
  let n := g.fieldId + 1
  let name := "field" ++ natStr n
  let scalarOpt : String → Option Rat → List Stmt := fun opt v =>
    match v with
    | none => []
    | some q => if q = 0 then [] else [.fieldScalarOption name opt q]
  let stmts :=
    [Stmt.assignNewf name, Stmt.fieldAssign name "BoundaryLayer"] ++
    (if edgesList.isEmpty then []
     else [Stmt.fieldListOption name "EdgesList" edgesList]) ++
    (if facesList.isEmpty then []
     else [Stmt.fieldListOption name "FacesList" facesList]) ++
    (if nodesList.isEmpty then []
     else [Stmt.fieldListOption name "NodesList" nodesList]) ++
    scalarOpt "hfar" hfar ++
    scalarOpt "hwall_t" hwallT ++
    scalarOpt "hwall_n" hwallN ++
    scalarOpt "ratio" rgrowth ++
    scalarOpt "thickness" thickness ++
    scalarOpt "AnisoMax" anisomax
  ({ g with fieldId := n, code := g.code ++ stmts }, name)

/-- `Geometry.add_background_field`. -/
def Geometry.addBackgroundField (g : Geometry) (fields : List String)
    (aggregationType : String) : Geometry × String :=
  let n := g.fieldId + 1
  let name := "field" ++ natStr n
  ({ g with fieldId := n,
            code := g.code ++ [.assignNewf name,
                               .fieldAssign name aggregationType,
                               .fieldsList name fields,
                               .backgroundField name] },
   name)

/-- `Geometry.add_array`: one list-assignment statement; the returned
reference carries the `[]` suffix. -/
def Geometry.addArray (g : Geometry) (entities : List String) :
    Geometry × String :=
  let n := g.arrayId + 1
  let name := "array" ++ natStr n
  ({ g with arrayId := n, code := g.code ++ [.arrayAssign name entities] },
   name ++ "[]")

/-- `Geometry.add_comment`. -/
def Geometry.addComment (g : Geometry) (s : String) : Geometry :=
  { g with code := g.code ++ [.comment s] }

/-- `Geometry.add_raw_code` applied to a single string. -/
def Geometry.addRawCode (g : Geometry) (s : String) : Geometry :=
  { g with code := g.code ++ [.raw s] }

/-- `Geometry.add_raw_code` applied to a list of strings. -/
def Geometry.addRawCodeMany (g : Geometry) (l : List String) : Geometry :=
  { g with code := g.code ++ l.map Stmt.raw }

/-- Python truthiness of an optional label (`if label:`): absent or empty
means falsy. -/
def labelTruthy (label : Option String) : Bool :=
  match label with
  | none => false
  | some s => !s.isEmpty

/-- Append points for a list of coordinates (the comprehension
`[self.add(Point(x, lcar)) for x in X]`). -/
def Geometry.addPoints (g : Geometry) (X : List Vec3) (lcar : Rat) :
    Geometry × List Ent :=
  match X with
  | [] => (g, [])
  | x :: rest =>
      let (g1, p) := g.addPoint x lcar
      let (g2, ps) := g1.addPoints rest lcar
      (g2, p :: ps)

/-- Append the connecting lines of a chain of points (the comprehension
`[self.add(Line(p[k], p[k+1])) for k in range(len(p)-1)]`). -/
def Geometry.addChainLines (g : Geometry) (a : Ent) (rest : List Ent) :
    Geometry × List Ent :=
  match rest with
  | [] => (g, [])
  | b :: more =>
      let (g1, l) := g.addLine a b
      let (g2, ls) := g1.addChainLines b more
      (g2, l :: ls)

/-- `Geometry.add_polygon_loop`: points, connecting lines, the closing
line back to the first point, and the line loop.  An empty coordinate
list would raise `IndexError` in the source (`p[-1]`). -/
def Geometry.addPolygonLoop (g : Geometry) (X : List Vec3) (lcar : Rat) :
    Geometry × Except String Ent :=
  let rp := g.addPoints X lcar
  match rp.2 with
  | [] => (rp.1, .error "IndexError")
  | p0 :: prest =>
      let rl := rp.1.addChainLines p0 prest
      let rc := rl.1.addLine (prest.getLastD p0) p0
      let rll := rc.1.addLineLoop (rl.2 ++ [rc.2])
      (rll.1, .ok rll.2)

/-- `Geometry.add_polygon`: a polygon loop plus the bounded plane
surface with optional holes. -/
def Geometry.addPolygon (g : Geometry) (X : List Vec3) (lcar : Rat)
    (holes : List Ent) : Geometry × Except String Ent :=
  let rll := g.addPolygonLoop X lcar
  match rll.2 with
  | .error e => (rll.1, .error e)
  | .ok ll =>
      let rq := rll.1.addPlaneSurface ll holes
      (rq.1, .ok rq.2)

/-- `Geometry.add_rectangle`: a polygon over the four corners. -/
def Geometry.addRectangle (g : Geometry)
    (xmin xmax ymin ymax z lcar : Rat) (holes : List Ent) :
    Geometry × Except String Ent :=
  g.addPolygon [(xmin, ymin, z), (xmax, ymin, z), (xmax, ymax, z),
                (xmin, ymax, z)] lcar holes

/-- Append ruled surfaces for a list of line loops (the comprehension
`[self.add_ruled_surface(l) for l in ll]`). -/
def Geometry.addRuledSurfaces (g : Geometry) (ll : List Ent) :
    Geometry × List String :=
  match ll with
  | [] => (g, [])
  | l :: rest =>
      let (g1, s) := g.addRuledSurface l.id
      let (g2, ss) := g1.addRuledSurfaces rest
      (g2, s :: ss)

/-- `Geometry.add_box`: 8 corner points, 12 edges, 6 line loops, 6 ruled
surfaces, 1 surface loop, optional hole array, optional volume with
optional physical-group label.  Returns the volume handle (when one is
created) and the surface-loop handle. -/
def Geometry.addBox (g : Geometry) (x0 x1 y0 y1 z0 z1 lcar : Rat)
    (withVolume : Bool) (holes : List String) (label : Option String) :
    Geometry × Option String × String :=
  let r0 := g.addPoint (x1, y1, z1) lcar
  let r1 := r0.1.addPoint (x1, y1, z0) lcar
  let r2 := r1.1.addPoint (x1, y0, z1) lcar
  let r3 := r2.1.addPoint (x1, y0, z0) lcar
  let r4 := r3.1.addPoint (x0, y1, z1) lcar
  let r5 := r4.1.addPoint (x0, y1, z0) lcar
  let r6 := r5.1.addPoint (x0, y0, z1) lcar
  let r7 := r6.1.addPoint (x0, y0, z0) lcar
  let p0 := r0.2
  let p1 := r1.2
  let p2 := r2.2
  let p3 := r3.2
  let p4 := r4.2
  let p5 := r5.2
  let p6 := r6.2
  let p7 := r7.2
  let s0 := r7.1.addLine p0 p1
  let s1 := s0.1.addLine p0 p2
  let s2 := s1.1.addLine p0 p4
  let s3 := s2.1.addLine p1 p3
  let s4 := s3.1.addLine p1 p5
  let s5 := s4.1.addLine p2 p3
  let s6 := s5.1.addLine p2 p6
  let s7 := s6.1.addLine p3 p7
  let s8 := s7.1.addLine p4 p5
  let s9 := s8.1.addLine p4 p6
  let s10 := s9.1.addLine p5 p7
  let s11 := s10.1.addLine p6 p7
  let e0 := s0.2
  let e1 := s1.2
  let e2 := s2.2
  let e3 := s3.2
  let e4 := s4.2
  let e5 := s5.2
  let e6 := s6.2
  let e7 := s7.2
  let e8 := s8.2
  let e9 := s9.2
  let e10 := s10.2
  let e11 := s11.2
  let t0 := s11.1.addLineLoop [e0, e3, negRef e5, negRef e1]
  let t1 := t0.1.addLineLoop [e0, e4, negRef e8, negRef e2]
  let t2 := t1.1.addLineLoop [e1, e6, negRef e9, negRef e2]
  let t3 := t2.1.addLineLoop [e3, e7, negRef e10, negRef e4]
  let t4 := t3.1.addLineLoop [e5, e7, negRef e11, negRef e6]
  let t5 := t4.1.addLineLoop [e8, e10, negRef e11, negRef e9]
  let rs := t5.1.addRuledSurfaces [t0.2, t1.2, t2.2, t3.2, t4.2, t5.2]
  let rsl := rs.1.addSurfaceLoop rs.2
  let rar := if holes.isEmpty then rsl
             else rsl.1.addArray (rsl.2 :: holes)
  if withVolume then
    let rv := rar.1.addVolume rar.2
    let gf := if labelTruthy label
              then rv.1.addPhysicalVolume rv.2 label else rv.1
    (gf, some rv.2, rar.2)
  else
    (rar.1, none, rar.2)

/-- `Geometry.add_ellipsoid`: a center point, six axis points, twelve
elliptical arcs, eight octant line loops and ruled surfaces, two
compound surfaces, one surface loop, optional hole array, optional
volume with optional label.  Returns the volume handle (when one is
created) and the surface-loop handle. -/
def Geometry.addEllipsoid (g : Geometry) (x0 : Vec3) (radii : Vec3)
    (lcar : Rat) (withVolume : Bool) (holes : List String)
    (label : Option String) : Geometry × Option String × String :=
  let r0 := g.addPoint x0 lcar
  let r1 := r0.1.addPoint (x0.1 + radii.1, x0.2.1, x0.2.2) lcar
  let r2 := r1.1.addPoint (x0.1, x0.2.1 + radii.2.1, x0.2.2) lcar
  let r3 := r2.1.addPoint (x0.1, x0.2.1, x0.2.2 + radii.2.2) lcar
  let r4 := r3.1.addPoint (x0.1 - radii.1, x0.2.1, x0.2.2) lcar
  let r5 := r4.1.addPoint (x0.1, x0.2.1 - radii.2.1, x0.2.2) lcar
  let r6 := r5.1.addPoint (x0.1, x0.2.1, x0.2.2 - radii.2.2) lcar
  let p0 := r0.2
  let p1 := r1.2
  let p2 := r2.2
  let p3 := r3.2
  let p4 := r4.2
  let p5 := r5.2
  let p6 := r6.2
  let a0 := r6.1.addEllipseArc [p1, p0, p6, p6]
  let a1 := a0.1.addEllipseArc [p6, p0, p4, p4]
  let a2 := a1.1.addEllipseArc [p4, p0, p3, p3]
  let a3 := a2.1.addEllipseArc [p3, p0, p1, p1]
  let a4 := a3.1.addEllipseArc [p1, p0, p2, p2]
  let a5 := a4.1.addEllipseArc [p2, p0, p4, p4]
  let a6 := a5.1.addEllipseArc [p4, p0, p5, p5]
  let a7 := a6.1.addEllipseArc [p5, p0, p1, p1]
  let a8 := a7.1.addEllipseArc [p6, p0, p2, p2]
  let a9 := a8.1.addEllipseArc [p2, p0, p3, p3]
  let a10 := a9.1.addEllipseArc [p3, p0, p5, p5]
  let a11 := a10.1.addEllipseArc [p5, p0, p6, p6]
  let c0 := a0.2
  let c1 := a1.2
  let c2 := a2.2
  let c3 := a3.2
  let c4 := a4.2
  let c5 := a5.2
  let c6 := a6.2
  let c7 := a7.2
  let c8 := a8.2
  let c9 := a9.2
  let c10 := a10.2
  let c11 := a11.2
  let t0 := a11.1.addLineLoop [c4, c9, c3]
  let t1 := t0.1.addLineLoop [c8, negRef c4, c0]
  let t2 := t1.1.addLineLoop [negRef c9, c5, c2]
  let t3 := t2.1.addLineLoop [negRef c5, negRef c8, c1]
  let t4 := t3.1.addLineLoop [c7, negRef c3, c10]
  let t5 := t4.1.addLineLoop [c11, negRef c7, negRef c0]
  let t6 := t5.1.addLineLoop [negRef c10, negRef c2, c6]
  let t7 := t6.1.addLineLoop [negRef c1, negRef c6, negRef c11]
  let rs := t7.1.addRuledSurfaces [t0.2, t1.2, t2.2, t3.2, t4.2, t5.2,
    t6.2, t7.2]
  let rc1 := rs.1.addCompoundSurface (rs.2.take 4)
  let rc2 := rc1.1.addCompoundSurface (rs.2.drop 4)
  let rsl := rc2.1.addSurfaceLoop [rc1.2, rc2.2]
  let rar := if holes.isEmpty then rsl
             else rsl.1.addArray (rsl.2 :: holes)
  if withVolume then
    let rv := rar.1.addVolume rar.2
    let gf := if labelTruthy label
              then rv.1.addPhysicalVolume rv.2 label else rv.1
    (gf, some rv.2, rar.2)
  else
    (rar.1, none, rar.2)

/-- `Geometry.add_ball`: delegates to `add_ellipsoid` with the three
radii equal. -/
def Geometry.addBall (g : Geometry) (x0 : Vec3) (radius lcar : Rat)
    (withVolume : Bool) (holes : List String) (label : Option String) :
    Geometry × Option String × String :=
  g.addEllipsoid x0 (radius, radius, radius) lcar withVolume holes label

/-- Modelled from the spec: a `Circle` entity (class not under `src/`):
"a small circle (as a loop of curves)", optionally "as one surface".  It
exposes the curves of its line loop, the loop itself and the plane
surface.  The number of curves is a model parameter (the spec fixes no
count); the section-point coordinates are representative placements
(they influence no statement count, kind or name). -/
structure CircleT where
  lineLoopLines : List Ent
  lineLoop : Ent
  planeSurface : Ent
  code : List Stmt
deriving DecidableEq

/-- Modelled from the spec: the section points of a `Circle`. -/
def Geometry.mkCirclePoints (g : Geometry) (x0 : Vec3) (radius lcar : Rat)
    (Rm : Mat3) (n : Nat) : Geometry × List Ent :=
  match n with
  | 0 => (g, [])
  | k + 1 =>
      let rp := g.mkPoint (vadd x0 (matVec Rm (radius, 0, 0))) lcar
      let rr := rp.1.mkCirclePoints x0 radius lcar Rm k
      (rr.1, rp.2 :: rr.2)

/-- Modelled from the spec: the circle arcs connecting consecutive
section points (closing back to the first). -/
def Geometry.mkCircleArcs (g : Geometry) (first : Ent) (a : Ent)
    (rest : List Ent) : Geometry × List Ent :=
  match rest with
  | [] =>
      let n := g.circlearcId + 1
      let name := "ca" ++ natStr n
      ({ g with circlearcId := n },
       [⟨name, [.circleArc name [a.id, first.id]]⟩])
  | b :: more =>
      let n := g.circlearcId + 1
      let name := "ca" ++ natStr n
      let rr := ({ g with circlearcId := n } : Geometry).mkCircleArcs
        first b more
      (rr.1, (⟨name, [.circleArc name [a.id, b.id]]⟩ : Ent) :: rr.2)

/-- Modelled from the spec: construction of a `Circle` entity: section
points, closing circle arcs, their line loop and (when requested) the
plane surface with optional hole loops.  The entity's `code` is the
concatenation of its parts' defining statements. -/
def Geometry.mkCircle (g : Geometry) (x0 : Vec3) (radius lcar : Rat)
    (Rm : Mat3) (numSections : Nat) (makeSurface : Bool)
    (holes : List Ent) : Geometry × CircleT :=
  let rp := g.mkCirclePoints x0 radius lcar Rm numSections
  match rp.2 with
  | [] =>
      let rll := rp.1.mkLineLoop []
      let rsf := if makeSurface then rll.1.mkPlaneSurface rll.2 holes
                 else (rll.1, (⟨"", []⟩ : Ent))
      (rsf.1, ⟨[], rll.2, rsf.2, rll.2.code ++ rsf.2.code⟩)
  | q :: qs =>
      let ra := rp.1.mkCircleArcs q q qs
      let rll := ra.1.mkLineLoop ra.2
      let rsf := if makeSurface then rll.1.mkPlaneSurface rll.2 holes
                 else (rll.1, (⟨"", []⟩ : Ent))
      (rsf.1, ⟨ra.2, rll.2, rsf.2,
        (rp.2.map Ent.code).flatten ++ (ra.2.map Ent.code).flatten ++
          rll.2.code ++ rsf.2.code⟩)

/-- `self.add(Circle(...))`: construct the circle and append its code. -/
def Geometry.addCircle (g : Geometry) (x0 : Vec3) (radius lcar : Rat)
    (Rm : Mat3) (numSections : Nat) (makeSurface : Bool)
    (holes : List Ent) : Geometry × CircleT :=
  let rc := g.mkCircle x0 radius lcar Rm numSections makeSurface holes
  ({ rc.1 with code := rc.1.code ++ rc.2.code }, rc.2)

/-- One round of the torus / pipe line extrusions: extrude each listed
line about the rotation axis, collecting the far-end ids (the new
`previous`) and the created surface ids. -/
def Geometry.extrudeLinesRound (g : Geometry) (rot pt : Vec3)
    (angle : String) (previous : List String) :
    Geometry × Except String (List String × List String) :=
  match previous with
  | [] => (g, .ok ([], []))
  | id0 :: rest =>
      match g.extrude ("Line\x7b" ++ id0 ++ "\x7d") none (some rot)
          (some pt) (some angle) with
      | (g1, .error e) => (g1, .error e)
      | (g1, .ok (top, surf)) =>
          match g1.extrudeLinesRound rot pt angle rest with
          | (g2, .error e) => (g2, .error e)
          | (g2, .ok (prev, surfs)) =>
              (g2, .ok (top.id :: prev, surf.id :: surfs))

/-- A row of 76 dashes (the `76 * '-'` comment). -/
def dashes76 : String := String.mk (List.replicate 76 '-')

/-- `Geometry._add_torus_extrude_lines`: circle at the tube center, three
rounds of line extrusions by 2*Pi/3, one surface loop, one volume,
optional label, and a final comment ending in a newline (the source
notes the trailing newline is essential for the target parser). -/
def Geometry.addTorusExtrudeLines (g : Geometry) (irad orad lcar : Rat)
    (Rm : Mat3) (x0 : Vec3) (label : Option String) (numSections : Nat) :
    Geometry × Except String Unit :=
  let g := g.addComment dashes76
  let g := g.addComment "Torus"
  let x0t := matVec Rm (0, orad, 0)
  let rc : Mat3 := ((0, 0, 1), (1, 0, 0), (0, 1, 0))
  let rcirc := g.addCircle (vadd x0 x0t) irad lcar (matMul Rm rc)
    numSections true []
  let rotAxis := matVec Rm (0, 0, 1)
  let pointOnRotAxis := vadd (matVec Rm (0, 0, 0)) x0
  let angle := "2*Pi/3"
  let previous := rcirc.2.lineLoopLines.map Ent.id
  let g1 := rcirc.1.addComment "Round no. 1"
  match g1.extrudeLinesRound rotAxis pointOnRotAxis angle previous with
  | (g2, .error e) => (g2, .error e)
  | (g2, .ok (prev1, surfs1)) =>
  let g3 := g2.addComment "Round no. 2"
  match g3.extrudeLinesRound rotAxis pointOnRotAxis angle prev1 with
  | (g4, .error e) => (g4, .error e)
  | (g4, .ok (prev2, surfs2)) =>
  let g5 := g4.addComment "Round no. 3"
  match g5.extrudeLinesRound rotAxis pointOnRotAxis angle prev2 with
  | (g6, .error e) => (g6, .error e)
  | (g6, .ok (_, surfs3)) =>
  let rsl := g6.addSurfaceLoop (surfs1 ++ surfs2 ++ surfs3)
  let rv := rsl.1.addVolume rsl.2
  let g7 := if labelTruthy label
            then rv.1.addPhysicalVolume rv.2 label else rv.1
  let g8 := g7.addComment (dashes76 ++ "\n")
  (g8, .ok ())

/-- `Geometry._add_torus_extrude_circle`: circle with its plane surface,
three chained surface extrusions by 2*Pi/3 collecting three volumes,
one compound volume, optional label, final newline comment. -/
def Geometry.addTorusExtrudeCircle (g : Geometry) (irad orad lcar : Rat)
    (Rm : Mat3) (x0 : Vec3) (label : Option String) (numSections : Nat) :
    Geometry × Except String Unit :=
  let g := g.addComment dashes76
  let g := g.addComment "Torus"
  let x0t := matVec Rm (0, orad, 0)
  let rc : Mat3 := ((0, 0, 1), (1, 0, 0), (0, 1, 0))
  let rcirc := g.addCircle (vadd x0 x0t) irad lcar (matMul Rm rc)
    numSections true []
  let rotAxis := matVec Rm (0, 0, 1)
  let pointOnRotAxis := vadd (matVec Rm (0, 0, 0)) x0
  let angle := "2*Pi/3"
  match rcirc.1.extrude ("Surface\x7b" ++ rcirc.2.planeSurface.id ++
      "\x7d") none (some rotAxis) (some pointOnRotAxis) (some angle) with
  | (g1, .error e) => (g1, .error e)
  | (g1, .ok (top1, vol1)) =>
  match g1.extrude ("Surface\x7b" ++ top1.id ++ "\x7d") none
      (some rotAxis) (some pointOnRotAxis) (some angle) with
  | (g2, .error e) => (g2, .error e)
  | (g2, .ok (top2, vol2)) =>
  match g2.extrude ("Surface\x7b" ++ top2.id ++ "\x7d") none
      (some rotAxis) (some pointOnRotAxis) (some angle) with
  | (g3, .error e) => (g3, .error e)
  | (g3, .ok (_, vol3)) =>
  let rv := g3.addCompoundVolume [vol1.id, vol2.id, vol3.id]
  let g4 := if labelTruthy label
            then rv.1.addPhysicalVolume rv.2 label else rv.1
  let g5 := g4.addComment (dashes76 ++ "\n")
  (g5, .ok ())

/-- `Geometry.add_torus`: dispatch on the variant selector; an
unrecognized selector raises `ValueError` before any statement. -/
def Geometry.addTorus (g : Geometry) (irad orad lcar : Rat) (Rm : Mat3)
    (x0 : Vec3) (label : Option String) (variant : String)
    (numSections : Nat) : Geometry × Except String Unit :=
  if variant = "extrude_lines" then
    g.addTorusExtrudeLines irad orad lcar Rm x0 label numSections
  else if variant = "extrude_circle" then
    g.addTorusExtrudeCircle irad orad lcar Rm x0 label numSections
  else
    (g, .error ("Illegal variant " ++ variant ++ "."))

/-- `Geometry._add_pipe_by_rectangle_rotation`: a 4-point rectangle in a
half plane, its 4 edges extruded through three rotation rounds, one
surface loop and one volume. -/
def Geometry.addPipeRectangleRotation (g : Geometry)
    (outerRadius innerRadius length : Rat) (Rm : Mat3) (x0 : Vec3)
    (label : Option String) (lcar : Rat) : Geometry × Except String Unit :=
  let g := g.addComment "Define rectangle."
  let xs : List Vec3 :=
    [(0, outerRadius, -(1/2) * length),
     (0, outerRadius, (1/2) * length),
     (0, innerRadius, (1/2) * length),
     (0, innerRadius, -(1/2) * length)]
  let xs := xs.map (fun x => vadd (matVec Rm x) x0)
  let rp := g.addPoints xs lcar
  match rp.2 with
  | [q0, q1, q2, q3] =>
    let s0 := rp.1.addLine q0 q1
    let s1 := s0.1.addLine q1 q2
    let s2 := s1.1.addLine q2 q3
    let s3 := s2.1.addLine q3 q0
    let rotAxis := matVec Rm (0, 0, 1)
    let pointOnRotAxis := vadd (matVec Rm (0, 0, 0)) x0
    let angle := "2*Pi/3"
    let previous := [s0.2.id, s1.2.id, s2.2.id, s3.2.id]
    let g1 := s3.1.addComment "Extrude in 3 steps."
    let g2 := g1.addComment "Step 1"
    match g2.extrudeLinesRound rotAxis pointOnRotAxis angle previous with
    | (g3, .error e) => (g3, .error e)
    | (g3, .ok (prev1, surfs1)) =>
    let g4 := g3.addComment "Step 2"
    match g4.extrudeLinesRound rotAxis pointOnRotAxis angle prev1 with
    | (g5, .error e) => (g5, .error e)
    | (g5, .ok (prev2, surfs2)) =>
    let g6 := g5.addComment "Step 3"
    match g6.extrudeLinesRound rotAxis pointOnRotAxis angle prev2 with
    | (g7, .error e) => (g7, .error e)
    | (g7, .ok (_, surfs3)) =>
    let rsl := g7.addSurfaceLoop (surfs1 ++ surfs2 ++ surfs3)
    let rv := rsl.1.addVolume rsl.2
    let g8 := if labelTruthy label
              then rv.1.addPhysicalVolume rv.2 label else rv.1
    (g8, .ok ())
  | _ => (rp.1, .error "unreachable: four corner points")

/-- `Geometry._add_pipe_by_circle_extrusion`: an inner circle without a
surface, an outer circle whose surface has the inner loop as a hole,
then one translation extrusion along the pipe axis. -/
def Geometry.addPipeCircleExtrusion (g : Geometry)
    (outerRadius innerRadius length : Rat) (Rm : Mat3) (x0 : Vec3)
    (label : Option String) (lcar : Rat) (numSections : Nat) :
    Geometry × Except String (Option String) :=
  let rc : Mat3 := ((0, 0, 1), (1, 0, 0), (0, 1, 0))
  let rInner := g.addCircle x0 innerRadius lcar (matMul Rm rc)
    numSections false []
  let rOuter := rInner.1.addCircle x0 outerRadius lcar (matMul Rm rc)
    numSections true [rInner.2.lineLoop]
  match rOuter.1.extrude ("Surface\x7b" ++ rOuter.2.planeSurface.id ++
      "\x7d") (some (matVec Rm (length, 0, 0))) none none none with
  | (g1, .error e) => (g1, .error e)
  | (g1, .ok (_, vol)) =>
    let g2 := if labelTruthy label then g1.addPhysicalVolume vol.id label
              else g1
    (g2, .ok (some vol.id))

/-- `Geometry.add_pipe`: dispatch on the variant selector; an
unrecognized selector raises `ValueError` before any statement. -/
def Geometry.addPipe (g : Geometry)
    (outerRadius innerRadius length : Rat) (Rm : Mat3) (x0 : Vec3)
    (label : Option String) (lcar : Rat) (variant : String)
    (numSections : Nat) : Geometry × Except String (Option String) :=
  if variant = "rectangle_rotation" then
    match g.addPipeRectangleRotation outerRadius innerRadius length Rm x0
        label lcar with
    | (g1, .error e) => (g1, .error e)
    | (g1, .ok _) => (g1, .ok none)
  else if variant = "circle_extrusion" then
    g.addPipeCircleExtrusion outerRadius innerRadius length Rm x0 label
      lcar numSections
  else
    (g, .error ("Illegal variant " ++ variant ++ "."))

/-- The dimensional capability of an OpenCASCADE entity: the three legal
base classes of the boolean dispatcher (`LineBase`, `SurfaceBase`,
`VolumeBase`). -/
inductive DimKind where
  | lineKind
  | surfaceKind
  | volumeKind
deriving DecidableEq

/-- The Gmsh keyword of a dimensional kind (`legal_dim_types` values). -/
def DimKind.keyword : DimKind → String
  | .lineKind => "Line"
  | .surfaceKind => "Surface"
  | .volumeKind => "Volume"

/-- Modelled from the spec: an OpenCASCADE entity handle: its symbolic
id, its dimensional capability (`none` for an entity that is none of the
three legal kinds, such as a raw `Dummy` reference), and whether the
handle is a list (multi-result) reference. -/
structure OCEnt where
  kind : Option DimKind
  id : String
  isList : Bool
deriving DecidableEq

/-- The OpenCASCADE `Geometry` session state: the boolean and extrusion
counters plus the statement log. -/
structure OCGeometry where
  booleanId : Nat
  extrudeId : Nat
  code : List Stmt
deriving DecidableEq

/-- A fresh OpenCASCADE session (`Geometry.__init__`): header and
factory statement, plus the optional characteristic-length settings. -/
def ocInit (clMin clMax : Option Rat) : OCGeometry :=
  { booleanId := 0, extrudeId := 0,
    code := [.header pygmshVersion, .setFactory] ++
      (match clMin with
       | some v => [Stmt.charLengthMin v]
       | none => []) ++
      (match clMax with
       | some v => [Stmt.charLengthMax v]
       | none => []) }

/-- OpenCASCADE `Geometry.get_code`. -/
def OCGeometry.getCode (g : OCGeometry) : String :=
  joinNl (g.code.map Stmt.render)

/-- All input and tool entities share the kind of the first input
entity: the property the `_boolean_operation` assertions check. -/
def OCGeometry.shareKind (entities : List OCEnt) : Prop :=
  ∃ k : DimKind, ∀ e ∈ entities, e.kind = some k

/-- `Geometry._boolean_operation`: bump the boolean counter (kept even
when a later assertion fails), determine the dimensional kind from the
first input entity, assert every other entity has the same kind, then
append the single operation statement and return a list-flagged handle
of the same kind.  An empty input list raises `IndexError`; a first
entity of no legal kind or a mismatched later entity fails the
assertion — all before anything is appended. -/
def OCGeometry.booleanOperation (g : OCGeometry) (operation : String)
    (inputEntities toolEntities : List OCEnt) (delete : Bool) :
    OCGeometry × Except String OCEnt :=
  let g1 := { g with booleanId := g.booleanId + 1 }
  match inputEntities with
  | [] => (g1, .error "IndexError")
  | e0 :: rest =>
      match e0.kind with
      | none => (g1, .error "Illegal input type for Boolean operation.")
      | some k =>
          if (rest ++ toolEntities).all (fun e => e.kind = some k) then
            let name := "bo" ++ natStr (g.booleanId + 1)
            ({ g1 with
               code := g1.code ++
                 [.booleanOp name operation k.keyword
                    (inputEntities.map OCEnt.id)
                    (toolEntities.map OCEnt.id) delete] },
             .ok ⟨some k, name, true⟩)
          else
            (g1, .error "Incompatible input type for Boolean operation.")

/-- `Geometry.boolean_intersection`: asserts at least two entities
before splitting them into object and tools. -/
def OCGeometry.booleanIntersection (g : OCGeometry)
    (entities : List OCEnt) (delete : Bool) :
    OCGeometry × Except String OCEnt :=
  match entities with
  | e :: rest =>
      if rest.isEmpty then (g, .error "AssertionError: len(entities) > 1")
      else g.booleanOperation "BooleanIntersection" [e] rest delete
  | [] => (g, .error "AssertionError: len(entities) > 1")

/-- `Geometry.boolean_union`: no length check; indexing an empty list
raises `IndexError` while building the arguments. -/
def OCGeometry.booleanUnion (g : OCGeometry) (entities : List OCEnt)
    (delete : Bool) : OCGeometry × Except String OCEnt :=
  match entities with
  | e :: rest => g.booleanOperation "BooleanUnion" [e] rest delete
  | [] => (g, .error "IndexError")

/-- `Geometry.boolean_difference`: a direct pass-through. -/
def OCGeometry.booleanDifference (g : OCGeometry)
    (inputEntities toolEntities : List OCEnt) (delete : Bool) :
    OCGeometry × Except String OCEnt :=
  g.booleanOperation "BooleanDifference" inputEntities toolEntities delete

/-- `Geometry.boolean_fragments`: a direct pass-through. -/
def OCGeometry.booleanFragments (g : OCGeometry)
    (inputEntities toolEntities : List OCEnt) (delete : Bool) :
    OCGeometry × Except String OCEnt :=
  g.booleanOperation "BooleanFragments" inputEntities toolEntities delete

/-- OpenCASCADE `Geometry.extrude`: bump the extrusion counter, wrap the
input according to its kind (a kindless handle models a raw string
input, used verbatim; a volume input fails the `LineBase` assertion),
then append one translation-extrusion statement and return the two
indexed results typed by the input kind. -/
def OCGeometry.extrude (g : OCGeometry) (inputEntity : OCEnt)
    (translationAxis : Vec3) :
    OCGeometry × Except String (OCEnt × OCEnt) :=
  let g1 := { g with extrudeId := g.extrudeId + 1 }
  match inputEntity.kind with
  | some .volumeKind => (g1, .error "Illegal extrude entity.")
  | k =>
      let ent :=
        match k with
        | some .surfaceKind => "Surface\x7b" ++ inputEntity.id ++ "\x7d"
        | some .lineKind => "Line\x7b" ++ inputEntity.id ++ "\x7d"
        | _ => inputEntity.id
      let name := "ex" ++ natStr (g.extrudeId + 1)
      let top := name ++ "[0]"
      let extruded := name ++ "[1]"
      let tk : Option DimKind × Option DimKind :=
        match k with
        | some .lineKind => (some .lineKind, some .surfaceKind)
        | some .surfaceKind => (some .surfaceKind, some .volumeKind)
        | _ => (none, none)
      ({ g1 with
         code := g1.code ++ [.ocExtrude name translationAxis ent] },
       .ok (⟨tk.1, top, false⟩, ⟨tk.2, extruded, false⟩))

/-- Is the statement a point definition? -/
def isPointDef : Stmt → Bool
  | .point _ _ _ => true
  | _ => false

/-- Is the statement a straight-line (edge) definition? -/
def isLineDef : Stmt → Bool
  | .line _ _ _ => true
  | _ => false

/-- Is the statement a line-loop definition? -/
def isLineLoopDef : Stmt → Bool
  | .lineLoop _ _ => true
  | _ => false

/-- Is the statement a surface definition (ruled, compound or plane)? -/
def isSurfaceDef : Stmt → Bool
  | .ruledSurface _ _ => true
  | .compoundSurface _ _ => true
  | .planeSurface _ _ => true
  | _ => false

/-- Is the statement a surface-loop definition? -/
def isSurfaceLoopDef : Stmt → Bool
  | .surfaceLoop _ _ => true
  | _ => false

/-- Is the statement a volume definition (plain or compound)? -/
def isVolumeDef : Stmt → Bool
  | .volume _ _ => true
  | .compoundVolume _ _ => true
  | _ => false

/-- Number of statements of a given kind in a log. -/
def defCount (p : Stmt → Bool) (l : List Stmt) : Nat := l.countP p

/-- The serialized script ends in a trailing newline character. -/
def endsWithNewline (s : String) : Prop := s.data.getLast? = some '\n'

/-- The entity categories whose symbols the sessions allocate, as listed
by the spec's allocator contract (the counters of the two `__init__`
methods that the source ever uses). -/
inductive Category where
  | surfaceCat
  | surfaceLoopCat
  | volumeCat
  | extrusionCat
  | fieldCat
  | arrayCat
  | physicalGroupCat
  | booleanCat
deriving DecidableEq

/-- The name piece written before the sequence number of each category,
as formatted at the source's allocation sites (`'surf%d'`,
`'surfloop%d'`, `'vol%d'`, `'ex%d'`, `'field%d'`, `'array%d'`, `'%d'`
for unlabeled physical groups, `'bo{}'`). -/
def Category.pfx : Category → String
  | .surfaceCat => "surf"
  | .surfaceLoopCat => "surfloop"
  | .volumeCat => "vol"
  | .extrusionCat => "ex"
  | .fieldCat => "field"
  | .arrayCat => "array"
  | .physicalGroupCat => ""
  | .booleanCat => "bo"

/-- The name allocated for a category at a given counter value. -/
def allocName (c : Category) (n : Nat) : String := c.pfx ++ natStr n

/-- One allocation step, as at every allocation site of the source: the
counter is incremented first and the name is formatted from the new
value. -/
def allocate (c : Category) (counter : Nat) : Nat × String :=
  (counter + 1, allocName c (counter + 1))

/-- N successive allocations for one category from a starting counter:
the list of (sequence number, name) pairs issued. -/
def allocRun (c : Category) (counter : Nat) : Nat → List (Nat × String)
  | 0 => []
  | n + 1 =>
      let r := allocate c counter
      (r.1, r.2) :: allocRun c r.1 n

/-- The six per-kind statement totals of a session log that the box
builder is specified to advance by fixed amounts. -/
structure Counts where
  pts : Nat
  lns : Nat
  lps : Nat
  srf : Nat
  slp : Nat
  vol : Nat
deriving DecidableEq

/-- The statement totals of a session. -/
def countsOf (g : Geometry) : Counts :=
  ⟨defCount isPointDef g.code, defCount isLineDef g.code,
   defCount isLineLoopDef g.code, defCount isSurfaceDef g.code,
   defCount isSurfaceLoopDef g.code, defCount isVolumeDef g.code⟩

/-- The three allocator counters the box builder's returned handles are
formatted from. -/
def idsOf (g : Geometry) : Nat × Nat × Nat :=
  (g.volumeId, g.surfaceloopId, g.arrayId)

/-- Advance the point total by one. -/
def bumpPts (c : Counts) : Counts := { c with pts := c.pts + 1 }

/-- Advance the edge total by one. -/
def bumpLns (c : Counts) : Counts := { c with lns := c.lns + 1 }

/-- Advance the line-loop total by one. -/
def bumpLps (c : Counts) : Counts := { c with lps := c.lps + 1 }

/-- Advance the surface total by a given amount. -/
def bumpSrfN (n : Nat) (c : Counts) : Counts := { c with srf := c.srf + n }

/-- Advance the surface-loop total by one. -/
def bumpSlp (c : Counts) : Counts := { c with slp := c.slp + 1 }

/-- Advance the volume total by one. -/
def bumpVol (c : Counts) : Counts := { c with vol := c.vol + 1 }

/-! Theorems.  First the infrastructure for decimal names: the fuel of
`decCharsAux` is immaterial, every character is a digit, and the
rendering is injective. -/

theorem decCharsAux_stable (n : Nat) : ∀ f g, n < f → n < g →
    decCharsAux f n = decCharsAux g n := by
  induction n using Nat.strong_induction_on with
  | _ n ih =>
    intro f g hf hg
    obtain ⟨f', rfl⟩ : ∃ f', f = f' + 1 := ⟨f - 1, by omega⟩
    obtain ⟨g', rfl⟩ : ∃ g', g = g' + 1 := ⟨g - 1, by omega⟩
    simp only [decCharsAux]
    by_cases h10 : n < 10
    · simp [h10]
    · have hd : n / 10 < n := Nat.div_lt_self (by omega) (by omega)
      simp only [h10, if_false]
      rw [ih (n / 10) hd f' g' (by omega) (by omega)]

theorem decChars_unfold (n : Nat) :
    decChars n = if n < 10 then [digitCh n]
                 else decChars (n / 10) ++ [digitCh (n % 10)] := by
  show decCharsAux (n + 1) n = _
  simp only [decCharsAux]
  by_cases h10 : n < 10
  · simp [h10]
  · have hd : n / 10 < n := Nat.div_lt_self (by omega) (by omega)
    simp only [h10, if_false]
    rw [decCharsAux_stable (n / 10) n (n / 10 + 1) (by omega) (by omega)]
    rfl

theorem digitCh_isDigit (d : Nat) (h : d < 10) :
    (digitCh d).isDigit = true := by
  interval_cases d <;> decide

theorem digitCh_injOn (a b : Nat) (ha : a < 10) (hb : b < 10)
    (h : digitCh a = digitCh b) : a = b := by
  interval_cases a <;> interval_cases b <;>
    first | rfl | exact absurd h (by decide)

theorem decChars_ne_nil (n : Nat) : decChars n ≠ [] := by
  rw [decChars_unfold]
  split <;> simp

theorem decChars_digits (n : Nat) :
    ∀ c ∈ decChars n, c.isDigit = true := by
  induction n using Nat.strong_induction_on with
  | _ n ih =>
    rw [decChars_unfold]
    by_cases h10 : n < 10
    · simp only [h10, if_true, List.mem_singleton]
      rintro c rfl
      exact digitCh_isDigit n h10
    · have hd : n / 10 < n := Nat.div_lt_self (by omega) (by omega)
      simp only [h10, if_false, List.mem_append, List.mem_singleton]
      rintro c (hc | rfl)
      · exact ih (n / 10) hd c hc
      · exact digitCh_isDigit (n % 10) (Nat.mod_lt n (by omega))

theorem decChars_inj (m : Nat) : ∀ n, decChars m = decChars n → m = n := by
  induction m using Nat.strong_induction_on with
  | _ m ih =>
    intro n h
    rw [decChars_unfold m, decChars_unfold n] at h
    by_cases hm : m < 10 <;> by_cases hn : n < 10
    · simp only [hm, hn, if_true, List.cons.injEq] at h
      exact digitCh_injOn m n hm hn h.1
    · exfalso
      simp only [hm, hn, if_true, if_false] at h
      cases hq : decChars (n / 10) with
      | nil => exact decChars_ne_nil (n / 10) hq
      | cons a l =>
          rw [hq, List.cons_append] at h
          injection h with h1 h2
          exact absurd h2.symm (List.append_ne_nil_of_right_ne_nil l (by simp))
    · exfalso
      simp only [hm, hn, if_true, if_false] at h
      cases hq : decChars (m / 10) with
      | nil => exact decChars_ne_nil (m / 10) hq
      | cons a l =>
          rw [hq, List.cons_append] at h
          injection h with h1 h2
          exact absurd h2 (List.append_ne_nil_of_right_ne_nil l (by simp))
    · simp only [hm, hn, if_false] at h
      obtain ⟨h1, h2⟩ := List.append_inj' h (by rfl)
      have hdm : m / 10 < m := Nat.div_lt_self (by omega) (by omega)
      have e1 : m / 10 = n / 10 := ih (m / 10) hdm (n / 10) h1
      have h3 : digitCh (m % 10) = digitCh (n % 10) := by injection h2
      have e2 : m % 10 = n % 10 :=
        digitCh_injOn (m % 10) (n % 10) (Nat.mod_lt m (by omega))
          (Nat.mod_lt n (by omega)) h3
      omega

theorem natStr_inj (m n : Nat) (h : natStr m = natStr n) : m = n := by
  apply decChars_inj
  have := congrArg String.data h
  simpa [natStr] using this

theorem natStr_data (n : Nat) : (natStr n).data = decChars n := rfl

theorem nodigit_digit_append_inj :
    ∀ (a1 a2 b1 b2 : List Char),
      (∀ c ∈ a1, c.isDigit = false) → (∀ c ∈ a2, c.isDigit = false) →
      (∀ c ∈ b1, c.isDigit = true) → (∀ c ∈ b2, c.isDigit = true) →
      a1 ++ b1 = a2 ++ b2 → a1 = a2 ∧ b1 = b2 := by
  intro a1
  induction a1 with
  | nil =>
      intro a2 b1 b2 _ ha2 hb1 _ h
      cases a2 with
      | nil => exact ⟨rfl, h⟩
      | cons c a2t =>
          exfalso
          simp only [List.nil_append, List.cons_append] at h
          have hcb1 : c ∈ b1 := by rw [h]; exact List.mem_cons_self c _
          have := hb1 c hcb1
          have := ha2 c (List.mem_cons_self c a2t)
          simp_all
  | cons c a1t ih =>
      intro a2 b1 b2 ha1 ha2 hb1 hb2 h
      cases a2 with
      | nil =>
          exfalso
          simp only [List.nil_append, List.cons_append] at h
          have hcb2 : c ∈ b2 := by rw [← h]; exact List.mem_cons_self c _
          have := hb2 c hcb2
          have := ha1 c (List.mem_cons_self c a1t)
          simp_all
      | cons d a2t =>
          simp only [List.cons_append, List.cons.injEq] at h
          obtain ⟨rfl, h2⟩ := h
          obtain ⟨e1, e2⟩ := ih a2t b1 b2
            (fun x hx => ha1 x (List.mem_cons_of_mem c hx))
            (fun x hx => ha2 x (List.mem_cons_of_mem c hx))
            hb1 hb2 h2
          exact ⟨by rw [e1], e2⟩

theorem category_pfx_nodigit (c : Category) :
    ∀ ch ∈ c.pfx.data, ch.isDigit = false := by
  cases c <;> decide

theorem category_pfx_inj (c1 c2 : Category) (h : c1.pfx = c2.pfx) :
    c1 = c2 := by
  cases c1 <;> cases c2 <;> first | rfl | exact absurd h (by decide)

theorem allocName_inj_cat (c : Category) (m n : Nat)
    (h : allocName c m = allocName c n) : m = n := by
  have hd := congrArg String.data h
  simp only [allocName, String.data_append, natStr_data] at hd
  exact decChars_inj m n (List.append_cancel_left hd)

theorem allocName_cross_ne (c1 c2 : Category) (h : c1 ≠ c2) (m n : Nat) :
    allocName c1 m ≠ allocName c2 n := by
  intro he
  have hd := congrArg String.data he
  simp only [allocName, String.data_append, natStr_data] at hd
  obtain ⟨e1, _⟩ := nodigit_digit_append_inj c1.pfx.data c2.pfx.data
    (decChars m) (decChars n) (category_pfx_nodigit c1)
    (category_pfx_nodigit c2) (decChars_digits m) (decChars_digits n) hd
  exact h (category_pfx_inj c1 c2 (String.ext e1))

theorem allocRun_mem (c : Category) :
    ∀ (numAllocs start : Nat), ∀ x ∈ allocRun c start numAllocs,
      start < x.1 ∧ x.1 ≤ start + numAllocs ∧ x.2 = allocName c x.1 := by
  intro numAllocs
  induction numAllocs with
  | zero => intro start x hx; simp [allocRun] at hx
  | succ k ih =>
      intro start x hx
      simp only [allocRun, allocate, List.mem_cons] at hx
      rcases hx with rfl | hx
      · exact ⟨by omega, by omega, rfl⟩
      · obtain ⟨h1, h2, h3⟩ := ih (start + 1) x hx
        exact ⟨by omega, by omega, h3⟩

theorem allocRun_pairwise (c : Category) :
    ∀ (numAllocs start : Nat),
      List.Pairwise (fun x y => x.1 < y.1 ∧ x.2 ≠ y.2)
        (allocRun c start numAllocs) := by
  intro numAllocs
  induction numAllocs with
  | zero => intro start; simp [allocRun]
  | succ k ih =>
      intro start
      simp only [allocRun, allocate]
      refine List.Pairwise.cons ?_ (ih (start + 1))
      intro y hy
      obtain ⟨h1, _, h3⟩ := allocRun_mem c k (start + 1) y hy
      refine ⟨h1, ?_⟩
      rw [h3]
      intro he
      exact absurd (allocName_inj_cat c (start + 1) y.1 he) (by omega)

/-- C7: within one session, for every entity category, N successive name
allocations yield N distinct names with strictly increasing sequence
numbers (each counter starts at zero in the constructors and is
incremented before formatting, as `allocate` does and as the allocation
sites of the embedded operations reproduce), and names of different
categories never collide because each category uses a distinct prefix. -/
theorem claim_C7 :
    (∀ (c : Category) (start numAllocs : Nat),
       List.Pairwise (fun x y => x.1 < y.1 ∧ x.2 ≠ y.2)
         (allocRun c start numAllocs)) ∧
    (∀ (c1 c2 : Category), c1 ≠ c2 →
       ∀ (s1 n1 s2 n2 : Nat) (x y : Nat × String),
         x ∈ allocRun c1 s1 n1 → y ∈ allocRun c2 s2 n2 → x.2 ≠ y.2) ∧
    (geoInit.surfaceId = 0 ∧ geoInit.surfaceloopId = 0 ∧
     geoInit.volumeId = 0 ∧ geoInit.extrudeId = 0 ∧
     geoInit.fieldId = 0 ∧ geoInit.arrayId = 0 ∧
     geoInit.physicalgroupId = 0 ∧ (ocInit none none).booleanId = 0) ∧
    (∀ (g : Geometry) (ll : String),
       (g.addRuledSurface ll).2 =
         (allocate Category.surfaceCat g.surfaceId).2 ∧
       (g.addRuledSurface ll).1.surfaceId =
         (allocate Category.surfaceCat g.surfaceId).1) ∧
    (∀ (g : Geometry) (ss : List String),
       (g.addSurfaceLoop ss).2 =
         (allocate Category.surfaceLoopCat g.surfaceloopId).2 ∧
       (g.addSurfaceLoop ss).1.surfaceloopId =
         (allocate Category.surfaceLoopCat g.surfaceloopId).1) ∧
    (∀ (g : Geometry) (sl : String),
       (g.addVolume sl).2 = (allocate Category.volumeCat g.volumeId).2 ∧
       (g.addVolume sl).1.volumeId =
         (allocate Category.volumeCat g.volumeId).1) ∧
    (∀ (g : Geometry) (es : List String),
       (g.addArray es).2 =
         (allocate Category.arrayCat g.arrayId).2 ++ "[]") ∧
    (∀ (g : Geometry) (fs : List String) (aggr : String),
       (g.addBackgroundField fs aggr).2 =
         (allocate Category.fieldCat g.fieldId).2) ∧
    (∀ (g : Geometry),
       (g.newPhysicalGroup none).2 =
         (allocate Category.physicalGroupCat g.physicalgroupId).2) := by
  refine ⟨fun c start numAllocs => allocRun_pairwise c numAllocs start,
    ?_, ?_, ?_, ?_, ?_, ?_, ?_, ?_⟩
  · intro c1 c2 h s1 n1 s2 n2 x y hx hy
    obtain ⟨_, _, hx3⟩ := allocRun_mem c1 n1 s1 x hx
    obtain ⟨_, _, hy3⟩ := allocRun_mem c2 n2 s2 y hy
    rw [hx3, hy3]
    exact allocName_cross_ne c1 c2 h x.1 y.1
  · exact ⟨rfl, rfl, rfl, rfl, rfl, rfl, rfl, rfl⟩
  · intro g ll
    exact ⟨rfl, rfl⟩
  · intro g ss
    exact ⟨rfl, rfl⟩
  · intro g sl
    exact ⟨rfl, rfl⟩
  · intro g es
    rfl
  · intro g fs aggr
    rfl
  · intro g
    have : natStr (g.physicalgroupId + 1) =
        "" ++ natStr (g.physicalgroupId + 1) := by
      apply String.ext
      simp [String.data_append]
    exact this

/-- C5: `extrude` on the built-in `Geometry` with translation axis,
rotation axis, point on axis and angle all absent fails with the
configuration error and appends nothing: the statement log is exactly
what it was (only the extrusion counter was bumped). -/
theorem claim_C5 (g : Geometry) (entity : String) :
    g.extrude entity none none none none =
      ({ g with extrudeId := g.extrudeId + 1 },
       Except.error "Specify at least translation or rotation.") ∧
    (g.extrude entity none none none none).1.code = g.code :=
  ⟨rfl, rfl⟩

/-- C9: `add_ball` appends exactly the same statements and returns the
same handles as `add_ellipsoid` with the three radii equal to the ball
radius: the former delegates to the latter, so the results coincide for
every session state and every identical remaining argument. -/
theorem claim_C9 (g : Geometry) (x0 : Vec3) (radius lcar : Rat)
    (withVolume : Bool) (holes : List String) (label : Option String) :
    g.addBall x0 radius lcar withVolume holes label =
      g.addEllipsoid x0 (radius, radius, radius) lcar withVolume holes
        label :=
  rfl

/-- C2 falls: `boolean_union` with a single entity (fewer than two
entities in total) does not fail; it appends one statement and returns a
handle. -/
theorem claim_C2_counterexample :
    ((ocInit none none).booleanUnion
        [⟨some DimKind.volumeKind, "x", false⟩] true).2 =
      Except.ok ⟨some DimKind.volumeKind, "bo" ++ natStr 1, true⟩ ∧
    ((ocInit none none).booleanUnion
        [⟨some DimKind.volumeKind, "x", false⟩] true).1.code.length =
      (ocInit none none).code.length + 1 := by
  exact ⟨rfl, rfl⟩

/-- C2 amended: only `boolean_intersection` checks the entity count: with
fewer than two entities it fails by assertion before any statement is
appended (state untouched); `boolean_union` (likewise difference and
fragments, which forward their arguments unchecked) accepts a single
entity of a legal kind, appends one statement and succeeds. -/
theorem claim_C2 :
    (∀ (g : OCGeometry) (entities : List OCEnt) (delete : Bool),
       entities.length < 2 →
       g.booleanIntersection entities delete =
         (g, Except.error "AssertionError: len(entities) > 1")) ∧
    (∀ (g : OCGeometry) (e : OCEnt) (k : DimKind) (delete : Bool),
       e.kind = some k →
       g.booleanUnion [e] delete =
         ({ g with booleanId := g.booleanId + 1,
                   code := g.code ++
                     [.booleanOp ("bo" ++ natStr (g.booleanId + 1))
                        "BooleanUnion" k.keyword [e.id] [] delete] },
          Except.ok ⟨some k, "bo" ++ natStr (g.booleanId + 1), true⟩)) := by
  constructor
  · intro g entities delete h
    match entities with
    | [] => rfl
    | [e] => rfl
    | e :: f :: r => simp at h; omega
  · intro g e k delete hk
    simp [OCGeometry.booleanUnion, OCGeometry.booleanOperation, hk]

theorem claim_C2_witness :
    (ocInit none none).booleanIntersection [] true =
      ((ocInit none none),
       Except.error "AssertionError: len(entities) > 1") ∧
    (ocInit none none).booleanUnion
        [⟨some DimKind.lineKind, "a", false⟩] false =
      ({ (ocInit none none) with
         booleanId := 1,
         code := (ocInit none none).code ++
           [.booleanOp ("bo" ++ natStr 1) "BooleanUnion"
              DimKind.lineKind.keyword ["a"] [] false] },
       Except.ok ⟨some DimKind.lineKind, "bo" ++ natStr 1, true⟩) :=
  ⟨claim_C2.1 (ocInit none none) [] true (by decide),
   claim_C2.2 (ocInit none none) ⟨some DimKind.lineKind, "a", false⟩
     DimKind.lineKind false rfl⟩

/-- C4: the boolean-operation dispatcher: when the input and tool
entities (the first input entity is what the source indexes, so the
input list is nonempty by shape) do not all share one dimensional
capability, the call fails with a type-mismatch error and appends
nothing; when they all share one, it succeeds, appends exactly one
statement and returns a new list-flagged entity of that same kind. -/
theorem claim_C4 (g : OCGeometry) (op : String) (e0 : OCEnt)
    (rest tools : List OCEnt) (delete : Bool) :
    (OCGeometry.shareKind (e0 :: (rest ++ tools)) →
       ∃ k, e0.kind = some k ∧
         g.booleanOperation op (e0 :: rest) tools delete =
           ({ g with booleanId := g.booleanId + 1,
                     code := g.code ++
                       [.booleanOp ("bo" ++ natStr (g.booleanId + 1)) op
                          k.keyword ((e0 :: rest).map OCEnt.id)
                          (tools.map OCEnt.id) delete] },
            Except.ok ⟨some k, "bo" ++ natStr (g.booleanId + 1),
              true⟩)) ∧
    (¬ OCGeometry.shareKind (e0 :: (rest ++ tools)) →
       (g.booleanOperation op (e0 :: rest) tools delete).1.code =
         g.code ∧
       ∃ msg, (g.booleanOperation op (e0 :: rest) tools delete).2 =
         Except.error msg) := by
  constructor
  · rintro ⟨k, hall⟩
    have hk : e0.kind = some k := hall e0 (List.mem_cons_self e0 _)
    refine ⟨k, hk, ?_⟩
    have hrest : ((rest ++ tools).all fun e => e.kind = some k) = true := by
      rw [List.all_eq_true]
      intro e he
      simp only [decide_eq_true_eq]
      exact hall e (List.mem_cons_of_mem e0 he)
    simp [OCGeometry.booleanOperation, hk, hrest]
  · intro hns
    simp only [OCGeometry.booleanOperation]
    match hk : e0.kind with
    | none => exact ⟨rfl, _, rfl⟩
    | some k =>
        have hall : ((rest ++ tools).all fun e => e.kind = some k)
            = false := by
          by_contra hc
          have htrue : ((rest ++ tools).all fun e => e.kind = some k)
              = true := by
            cases hx : (rest ++ tools).all fun e => e.kind = some k
            · exact absurd hx hc
            · rfl
          refine hns ⟨k, ?_⟩
          intro e he
          rcases List.mem_cons.mp he with rfl | he2
          · exact hk
          · rw [List.all_eq_true] at htrue
            simpa using htrue e he2
        simp [hall]

theorem claim_C4_witness :
    (∃ k, (⟨some DimKind.surfaceKind, "s1", false⟩ : OCEnt).kind =
        some k ∧
      (ocInit none none).booleanOperation "BooleanUnion"
          [⟨some DimKind.surfaceKind, "s1", false⟩]
          [⟨some DimKind.surfaceKind, "s2", false⟩] true =
        ({ (ocInit none none) with
           booleanId := (ocInit none none).booleanId + 1,
           code := (ocInit none none).code ++
             [.booleanOp ("bo" ++ natStr ((ocInit none none).booleanId
                  + 1)) "BooleanUnion" k.keyword
                (([⟨some DimKind.surfaceKind, "s1", false⟩] :
                    List OCEnt).map OCEnt.id)
                (([⟨some DimKind.surfaceKind, "s2", false⟩] :
                    List OCEnt).map OCEnt.id) true] },
         Except.ok ⟨some k,
           "bo" ++ natStr ((ocInit none none).booleanId + 1),
           true⟩)) ∧
    (((ocInit none none).booleanOperation "BooleanDifference"
        [⟨some DimKind.surfaceKind, "s1", false⟩]
        [⟨some DimKind.lineKind, "l1", false⟩] true).1.code =
      (ocInit none none).code ∧
     ∃ msg, ((ocInit none none).booleanOperation "BooleanDifference"
        [⟨some DimKind.surfaceKind, "s1", false⟩]
        [⟨some DimKind.lineKind, "l1", false⟩] true).2 =
       Except.error msg) := by
  constructor
  · have h := (claim_C4 (ocInit none none) "BooleanUnion"
      ⟨some DimKind.surfaceKind, "s1", false⟩ []
      [⟨some DimKind.surfaceKind, "s2", false⟩] true).1
    exact h ⟨DimKind.surfaceKind, by intro e he; fin_cases he <;> rfl⟩
  · have h := (claim_C4 (ocInit none none) "BooleanDifference"
      ⟨some DimKind.surfaceKind, "s1", false⟩ []
      [⟨some DimKind.lineKind, "l1", false⟩] true).2
    apply h
    rintro ⟨k, hall⟩
    have h1 := hall ⟨some DimKind.surfaceKind, "s1", false⟩
      (List.mem_cons_self _ _)
    have h2 := hall ⟨some DimKind.lineKind, "l1", false⟩ (by simp)
    simp only [Option.some.injEq] at h1 h2
    rw [← h1] at h2
    exact absurd h2 (by decide)

theorem booleanOperation_mismatch_state (g : OCGeometry) (op : String)
    (e0 : OCEnt) (rest tools : List OCEnt) (delete : Bool)
    (hns : ¬ OCGeometry.shareKind (e0 :: (rest ++ tools))) :
    (g.booleanOperation op (e0 :: rest) tools delete).1 =
      { g with booleanId := g.booleanId + 1 } := by
  simp only [OCGeometry.booleanOperation]
  match hk : e0.kind with
  | none => rfl
  | some k =>
      have hall : ((rest ++ tools).all fun e => e.kind = some k)
          = false := by
        by_contra hc
        have htrue : ((rest ++ tools).all fun e => e.kind = some k)
            = true := by
          cases hx : (rest ++ tools).all fun e => e.kind = some k
          · exact absurd hx hc
          · rfl
        refine hns ⟨k, ?_⟩
        intro e he
        rcases List.mem_cons.mp he with rfl | he2
        · exact hk
        · rw [List.all_eq_true] at htrue
          simpa using htrue e he2
      simp [hall]

theorem booleanOperation_match_ok (g : OCGeometry) (op : String)
    (e0 : OCEnt) (rest tools : List OCEnt) (delete : Bool) (k : DimKind)
    (hk : e0.kind = some k)
    (hall : ∀ e ∈ rest ++ tools, e.kind = some k) :
    (g.booleanOperation op (e0 :: rest) tools delete).2 =
      Except.ok ⟨some k, "bo" ++ natStr (g.booleanId + 1), true⟩ := by
  have hrest : ((rest ++ tools).all fun e => e.kind = some k) = true := by
    rw [List.all_eq_true]
    intro e he
    simp only [decide_eq_true_eq]
    exact hall e he
  simp [OCGeometry.booleanOperation, hk, hrest]

/-- C10: when built-in `extrude` fails for lack of both translation and
rotation, or an OpenCASCADE boolean operation fails its
dimensional-compatibility validation, the respective counter has
already been incremented, so the next successful call of that kind
skips one sequence number; the statement log is unchanged by the
failing call. -/
theorem claim_C10 :
    (∀ (g : Geometry) (entity entity2 : String) (t : Vec3),
       (g.extrude entity none none none none).1.extrudeId =
         g.extrudeId + 1 ∧
       (g.extrude entity none none none none).1.code = g.code ∧
       (∃ msg, (g.extrude entity none none none none).2 =
         Except.error msg) ∧
       ((g.extrude entity none none none none).1.extrude entity2
           (some t) none none none).2 =
         Except.ok (⟨"ex" ++ natStr (g.extrudeId + 2) ++ "[0]", []⟩,
                    ⟨"ex" ++ natStr (g.extrudeId + 2) ++ "[1]", []⟩)) ∧
    (∀ (g : OCGeometry) (op op2 : String) (e0 : OCEnt)
       (rest tools : List OCEnt) (delete : Bool),
       ¬ OCGeometry.shareKind (e0 :: (rest ++ tools)) →
       (g.booleanOperation op (e0 :: rest) tools delete).1.booleanId =
         g.booleanId + 1 ∧
       (g.booleanOperation op (e0 :: rest) tools delete).1.code =
         g.code ∧
       ∀ (e1 : OCEnt) (rest2 tools2 : List OCEnt) (del2 : Bool)
         (k : DimKind), e1.kind = some k →
         (∀ e ∈ rest2 ++ tools2, e.kind = some k) →
         ((g.booleanOperation op (e0 :: rest) tools
             delete).1.booleanOperation op2 (e1 :: rest2) tools2
             del2).2 =
           Except.ok ⟨some k, "bo" ++ natStr (g.booleanId + 2),
             true⟩) := by
  constructor
  · intro g entity entity2 t
    exact ⟨rfl, rfl, ⟨_, rfl⟩, rfl⟩
  · intro g op op2 e0 rest tools delete hns
    have hst := booleanOperation_mismatch_state g op e0 rest tools
      delete hns
    refine ⟨by rw [hst], by rw [hst], ?_⟩
    intro e1 rest2 tools2 del2 k hk hall
    rw [hst]
    exact booleanOperation_match_ok _ op2 e1 rest2 tools2 del2 k hk hall

theorem claim_C10_witness :
    ((geoInit.extrude "s" none none none none).1.extrudeId =
       geoInit.extrudeId + 1 ∧
     (geoInit.extrude "s" none none none none).1.code = geoInit.code ∧
     (∃ msg, (geoInit.extrude "s" none none none none).2 =
       Except.error msg) ∧
     ((geoInit.extrude "s" none none none none).1.extrude "t"
         (some (1, 0, 0)) none none none).2 =
       Except.ok (⟨"ex" ++ natStr (geoInit.extrudeId + 2) ++ "[0]", []⟩,
                  ⟨"ex" ++ natStr (geoInit.extrudeId + 2) ++ "[1]",
                    []⟩)) ∧
    (((ocInit none none).booleanOperation "BooleanFragments"
        [⟨some DimKind.volumeKind, "v1", false⟩]
        [⟨some DimKind.surfaceKind, "s1", false⟩] true).1.booleanId =
       (ocInit none none).booleanId + 1) := by
  constructor
  · exact claim_C10.1 geoInit "s" "t" (1, 0, 0)
  · refine (claim_C10.2 (ocInit none none) "BooleanFragments"
      "BooleanUnion" ⟨some DimKind.volumeKind, "v1", false⟩ []
      [⟨some DimKind.surfaceKind, "s1", false⟩] true ?_).1
    rintro ⟨k, hall⟩
    have h1 := hall ⟨some DimKind.volumeKind, "v1", false⟩
      (List.mem_cons_self _ _)
    have h2 := hall ⟨some DimKind.surfaceKind, "s1", false⟩ (by simp)
    simp only [Option.some.injEq] at h1 h2
    rw [← h1] at h2
    exact absurd h2 (by decide)

theorem claim_C7_witness :
    List.Pairwise (fun x y => x.1 < y.1 ∧ x.2 ≠ y.2)
      (allocRun Category.surfaceCat 0 3) ∧
    ((1, allocName Category.surfaceCat 1) : Nat × String).2 ≠
      ((2, allocName Category.volumeCat 2) : Nat × String).2 := by
  constructor
  · exact claim_C7.1 Category.surfaceCat 0 3
  · exact claim_C7.2.1 Category.surfaceCat Category.volumeCat
      (by decide) 0 1 1 1 (1, allocName Category.surfaceCat 1)
      (2, allocName Category.volumeCat 2)
      (by simp [allocRun, allocate]) (by simp [allocRun, allocate])

theorem joinNl_last (s : String) (h : s.data ≠ []) :
    ∀ l : List String,
      (joinNl (l ++ [s])).data.getLast? = s.data.getLast? := by
  intro l
  induction l with
  | nil => rfl
  | cons a l ih =>
      cases l with
      | nil =>
          show ((a ++ "\n" ++ s)).data.getLast? = _
          rw [String.data_append]
          exact List.getLast?_append_of_ne_nil _ h
      | cons b l2 =>
          show ((a ++ "\n" ++ joinNl ((b :: l2) ++ [s]))).data.getLast?
            = _
          rw [String.data_append]
          rw [List.getLast?_append_of_ne_nil _ ?hne]
          · exact ih
          case hne =>
            intro hnil
            have hsome : s.data.getLast?.isSome :=
              Option.isSome_iff_exists.mpr
                (by
                  cases hq : s.data.getLast? with
                  | none =>
                      exact absurd (List.getLast?_eq_none_iff.mp hq) h
                  | some c => exact ⟨c, rfl⟩)
            rw [← ih] at hsome
            rw [hnil] at hsome
            simp at hsome

/-- C1 falls: serializing a fresh session (an empty sequence of builder
calls) yields a script whose last character is not a newline, for the
built-in and the OpenCASCADE geometry alike: `get_code` only joins the
statements and appends nothing. -/
theorem claim_C1_counterexample :
    ¬ endsWithNewline geoInit.getCode ∧
    ¬ endsWithNewline (ocInit none none).getCode := by
  unfold endsWithNewline
  constructor <;> decide

/-- C1 amended: `get_code` joins the statements with single newlines and
appends no trailing newline; the serialized script ends in a newline
character exactly when the text of the last logged statement does (as
happens after the torus builders, which deliberately append a final
comment ending in a newline). -/
theorem claim_C1 :
    (∀ (g : Geometry) (s : Stmt), g.code.getLast? = some s →
       s.render.data ≠ [] →
       (endsWithNewline g.getCode ↔ endsWithNewline s.render)) ∧
    (∀ (g : OCGeometry) (s : Stmt), g.code.getLast? = some s →
       s.render.data ≠ [] →
       (endsWithNewline g.getCode ↔ endsWithNewline s.render)) := by
  constructor
  · intro g s hlast hne
    obtain ⟨l2, hl⟩ := List.getLast?_eq_some_iff.mp hlast
    unfold Geometry.getCode endsWithNewline
    rw [hl, List.map_append]
    simp only [List.map_cons, List.map_nil]
    rw [joinNl_last s.render hne (l2.map Stmt.render)]
  · intro g s hlast hne
    obtain ⟨l2, hl⟩ := List.getLast?_eq_some_iff.mp hlast
    unfold OCGeometry.getCode endsWithNewline
    rw [hl, List.map_append]
    simp only [List.map_cons, List.map_nil]
    rw [joinNl_last s.render hne (l2.map Stmt.render)]

theorem claim_C1_witness :
    (endsWithNewline geoInit.getCode ↔
      endsWithNewline (Stmt.header pygmshVersion).render) ∧
    (endsWithNewline (ocInit none none).getCode ↔
      endsWithNewline Stmt.setFactory.render) :=
  ⟨claim_C1.1 geoInit (Stmt.header pygmshVersion) rfl (by decide),
   claim_C1.2 (ocInit none none) Stmt.setFactory rfl (by decide)⟩


theorem countsOf_addPoint (g : Geometry) (x : Vec3) (lcar : Rat) :
    countsOf (g.addPoint x lcar).1 = bumpPts (countsOf g) := by
  simp [countsOf, bumpPts, Geometry.addPoint, Geometry.mkPoint, Geometry.add,
    defCount, List.countP_append, List.countP_cons, isPointDef,
    isLineDef, isLineLoopDef, isSurfaceDef, isSurfaceLoopDef,
    isVolumeDef]

theorem countsOf_addLine (g : Geometry) (a b : Ent) :
    countsOf (g.addLine a b).1 = bumpLns (countsOf g) := by
  simp [countsOf, bumpLns, Geometry.addLine, Geometry.mkLine, Geometry.add,
    defCount, List.countP_append, List.countP_cons, isPointDef,
    isLineDef, isLineLoopDef, isSurfaceDef, isSurfaceLoopDef,
    isVolumeDef]

theorem countsOf_addLineLoop (g : Geometry) (cs : List Ent) :
    countsOf (g.addLineLoop cs).1 = bumpLps (countsOf g) := by
  simp [countsOf, bumpLps, Geometry.addLineLoop, Geometry.mkLineLoop,
    Geometry.add, defCount, List.countP_append, List.countP_cons,
    isPointDef, isLineDef, isLineLoopDef, isSurfaceDef,
    isSurfaceLoopDef, isVolumeDef]

theorem countsOf_addRuledSurface (g : Geometry) (ll : String) :
    countsOf (g.addRuledSurface ll).1 = bumpSrfN 1 (countsOf g) := by
  simp [countsOf, bumpSrfN, Geometry.addRuledSurface, defCount,
    List.countP_append, List.countP_cons, isPointDef, isLineDef,
    isLineLoopDef, isSurfaceDef, isSurfaceLoopDef, isVolumeDef]

theorem countsOf_addRuledSurfaces (g : Geometry) (ls : List Ent) :
    countsOf (g.addRuledSurfaces ls).1 =
      bumpSrfN ls.length (countsOf g) := by
  induction ls generalizing g with
  | nil => simp [Geometry.addRuledSurfaces, bumpSrfN]
  | cons l rest ih =>
      simp only [Geometry.addRuledSurfaces]
      rw [ih]
      rw [countsOf_addRuledSurface]
      simp [bumpSrfN]
      omega

theorem countsOf_addSurfaceLoop (g : Geometry) (ss : List String) :
    countsOf (g.addSurfaceLoop ss).1 = bumpSlp (countsOf g) := by
  simp [countsOf, bumpSlp, Geometry.addSurfaceLoop, defCount,
    List.countP_append, List.countP_cons, isPointDef, isLineDef,
    isLineLoopDef, isSurfaceDef, isSurfaceLoopDef, isVolumeDef]

theorem countsOf_addArray (g : Geometry) (es : List String) :
    countsOf (g.addArray es).1 = countsOf g := by
  simp [countsOf, Geometry.addArray, defCount, List.countP_append,
    List.countP_cons, isPointDef, isLineDef, isLineLoopDef,
    isSurfaceDef, isSurfaceLoopDef, isVolumeDef]

theorem countsOf_addVolume (g : Geometry) (sl : String) :
    countsOf (g.addVolume sl).1 = bumpVol (countsOf g) := by
  simp [countsOf, bumpVol, Geometry.addVolume, defCount, List.countP_append,
    List.countP_cons, isPointDef, isLineDef, isLineLoopDef,
    isSurfaceDef, isSurfaceLoopDef, isVolumeDef]

theorem countsOf_addPhysicalVolume (g : Geometry) (v : String)
    (label : Option String) :
    countsOf (g.addPhysicalVolume v label) = countsOf g := by
  simp [countsOf, Geometry.addPhysicalVolume, Geometry.newPhysicalGroup,
    defCount, List.countP_append, List.countP_cons, isPointDef,
    isLineDef, isLineLoopDef, isSurfaceDef, isSurfaceLoopDef,
    isVolumeDef]

theorem idsOf_addRuledSurfaces (g : Geometry) (ls : List Ent) :
    idsOf (g.addRuledSurfaces ls).1 = idsOf g := by
  induction ls generalizing g with
  | nil => rfl
  | cons l rest ih =>
      simp only [Geometry.addRuledSurfaces]
      rw [ih]
      rfl

set_option maxHeartbeats 1600000 in
/-- C6: every `add_box` call emits exactly 8 point definitions, 12 edge
definitions, 6 line-loop definitions, 6 surface definitions and 1
surface-loop definition; exactly 1 volume definition when a volume is
requested and none otherwise, in which case the returned volume handle
is `none` while the surface-loop handle (or the hole array built around
it) is still returned. -/
theorem claim_C6 (g : Geometry) (x0 x1 y0 y1 z0 z1 lcar : Rat)
    (withVolume : Bool) (holes : List String) (label : Option String) :
    defCount isPointDef
        (g.addBox x0 x1 y0 y1 z0 z1 lcar withVolume holes label).1.code =
      defCount isPointDef g.code + 8 ∧
    defCount isLineDef
        (g.addBox x0 x1 y0 y1 z0 z1 lcar withVolume holes label).1.code =
      defCount isLineDef g.code + 12 ∧
    defCount isLineLoopDef
        (g.addBox x0 x1 y0 y1 z0 z1 lcar withVolume holes label).1.code =
      defCount isLineLoopDef g.code + 6 ∧
    defCount isSurfaceDef
        (g.addBox x0 x1 y0 y1 z0 z1 lcar withVolume holes label).1.code =
      defCount isSurfaceDef g.code + 6 ∧
    defCount isSurfaceLoopDef
        (g.addBox x0 x1 y0 y1 z0 z1 lcar withVolume holes label).1.code =
      defCount isSurfaceLoopDef g.code + 1 ∧
    defCount isVolumeDef
        (g.addBox x0 x1 y0 y1 z0 z1 lcar withVolume holes label).1.code =
      defCount isVolumeDef g.code + (if withVolume then 1 else 0) ∧
    (g.addBox x0 x1 y0 y1 z0 z1 lcar withVolume holes label).2.1 =
      (if withVolume then some ("vol" ++ natStr (g.volumeId + 1))
       else none) ∧
    (g.addBox x0 x1 y0 y1 z0 z1 lcar withVolume holes label).2.2 =
      (if holes.isEmpty then "surfloop" ++ natStr (g.surfaceloopId + 1)
       else "array" ++ natStr (g.arrayId + 1) ++ "[]") := by
  set B := g.addBox x0 x1 y0 y1 z0 z1 lcar withVolume holes label
    with hB
  unfold Geometry.addBox at hB
  lift_lets at hB
  extract_lets r0 r1 r2 r3 r4 r5 r6 r7 p0 p1 p2 p3 p4 p5 p6 p7
    s0 s1 s2 s3 s4 s5 s6 s7 s8 s9 s10 s11
    e0 e1 e2 e3 e4 e5 e6 e7 e8 e9 e10 e11
    t0 t1 t2 t3 t4 t5 rs rsl rar at hB
  have K1 : countsOf r0.1 = bumpPts (countsOf g) :=
    countsOf_addPoint g _ _
  have K2 := (show countsOf r1.1 = bumpPts (countsOf r0.1) from
    countsOf_addPoint r0.1 _ _).trans (congrArg bumpPts K1)
  have K3 := (show countsOf r2.1 = bumpPts (countsOf r1.1) from
    countsOf_addPoint r1.1 _ _).trans (congrArg bumpPts K2)
  have K4 := (show countsOf r3.1 = bumpPts (countsOf r2.1) from
    countsOf_addPoint r2.1 _ _).trans (congrArg bumpPts K3)
  have K5 := (show countsOf r4.1 = bumpPts (countsOf r3.1) from
    countsOf_addPoint r3.1 _ _).trans (congrArg bumpPts K4)
  have K6 := (show countsOf r5.1 = bumpPts (countsOf r4.1) from
    countsOf_addPoint r4.1 _ _).trans (congrArg bumpPts K5)
  have K7 := (show countsOf r6.1 = bumpPts (countsOf r5.1) from
    countsOf_addPoint r5.1 _ _).trans (congrArg bumpPts K6)
  have K8 := (show countsOf r7.1 = bumpPts (countsOf r6.1) from
    countsOf_addPoint r6.1 _ _).trans (congrArg bumpPts K7)
  have K9 := (show countsOf s0.1 = bumpLns (countsOf r7.1) from
    countsOf_addLine r7.1 _ _).trans (congrArg bumpLns K8)
  have K10 := (show countsOf s1.1 = bumpLns (countsOf s0.1) from
    countsOf_addLine s0.1 _ _).trans (congrArg bumpLns K9)
  have K11 := (show countsOf s2.1 = bumpLns (countsOf s1.1) from
    countsOf_addLine s1.1 _ _).trans (congrArg bumpLns K10)
  have K12 := (show countsOf s3.1 = bumpLns (countsOf s2.1) from
    countsOf_addLine s2.1 _ _).trans (congrArg bumpLns K11)
  have K13 := (show countsOf s4.1 = bumpLns (countsOf s3.1) from
    countsOf_addLine s3.1 _ _).trans (congrArg bumpLns K12)
  have K14 := (show countsOf s5.1 = bumpLns (countsOf s4.1) from
    countsOf_addLine s4.1 _ _).trans (congrArg bumpLns K13)
  have K15 := (show countsOf s6.1 = bumpLns (countsOf s5.1) from
    countsOf_addLine s5.1 _ _).trans (congrArg bumpLns K14)
  have K16 := (show countsOf s7.1 = bumpLns (countsOf s6.1) from
    countsOf_addLine s6.1 _ _).trans (congrArg bumpLns K15)
  have K17 := (show countsOf s8.1 = bumpLns (countsOf s7.1) from
    countsOf_addLine s7.1 _ _).trans (congrArg bumpLns K16)
  have K18 := (show countsOf s9.1 = bumpLns (countsOf s8.1) from
    countsOf_addLine s8.1 _ _).trans (congrArg bumpLns K17)
  have K19 := (show countsOf s10.1 = bumpLns (countsOf s9.1) from
    countsOf_addLine s9.1 _ _).trans (congrArg bumpLns K18)
  have K20 := (show countsOf s11.1 = bumpLns (countsOf s10.1) from
    countsOf_addLine s10.1 _ _).trans (congrArg bumpLns K19)
  have K21 := (show countsOf t0.1 = bumpLps (countsOf s11.1) from
    countsOf_addLineLoop s11.1 _).trans (congrArg bumpLps K20)
  have K22 := (show countsOf t1.1 = bumpLps (countsOf t0.1) from
    countsOf_addLineLoop t0.1 _).trans (congrArg bumpLps K21)
  have K23 := (show countsOf t2.1 = bumpLps (countsOf t1.1) from
    countsOf_addLineLoop t1.1 _).trans (congrArg bumpLps K22)
  have K24 := (show countsOf t3.1 = bumpLps (countsOf t2.1) from
    countsOf_addLineLoop t2.1 _).trans (congrArg bumpLps K23)
  have K25 := (show countsOf t4.1 = bumpLps (countsOf t3.1) from
    countsOf_addLineLoop t3.1 _).trans (congrArg bumpLps K24)
  have K26 := (show countsOf t5.1 = bumpLps (countsOf t4.1) from
    countsOf_addLineLoop t4.1 _).trans (congrArg bumpLps K25)
  have K27 := (show countsOf rs.1 = bumpSrfN 6 (countsOf t5.1) from
    countsOf_addRuledSurfaces t5.1 _).trans (congrArg (bumpSrfN 6) K26)
  have K28 := (show countsOf rsl.1 = bumpSlp (countsOf rs.1) from
    countsOf_addSurfaceLoop rs.1 _).trans (congrArg bumpSlp K27)
  have K0 : countsOf rsl.1 =
      { countsOf g with
        pts := (countsOf g).pts + 8,
        lns := (countsOf g).lns + 12, lps := (countsOf g).lps + 6,
        srf := (countsOf g).srf + 6, slp := (countsOf g).slp + 1 } := by
    refine K28.trans ?_
    rcases countsOf g with ⟨a1, a2, a3, a4, a5, a6⟩
    simp [bumpPts, bumpLns, bumpLps, bumpSrfN, bumpSlp]
  have i1 : idsOf r0.1 = idsOf g := rfl
  have i2 := (show idsOf r1.1 = idsOf r0.1 from rfl).trans i1
  have i3 := (show idsOf r2.1 = idsOf r1.1 from rfl).trans i2
  have i4 := (show idsOf r3.1 = idsOf r2.1 from rfl).trans i3
  have i5 := (show idsOf r4.1 = idsOf r3.1 from rfl).trans i4
  have i6 := (show idsOf r5.1 = idsOf r4.1 from rfl).trans i5
  have i7 := (show idsOf r6.1 = idsOf r5.1 from rfl).trans i6
  have i8 := (show idsOf r7.1 = idsOf r6.1 from rfl).trans i7
  have i9 := (show idsOf s0.1 = idsOf r7.1 from rfl).trans i8
  have i10 := (show idsOf s1.1 = idsOf s0.1 from rfl).trans i9
  have i11 := (show idsOf s2.1 = idsOf s1.1 from rfl).trans i10
  have i12 := (show idsOf s3.1 = idsOf s2.1 from rfl).trans i11
  have i13 := (show idsOf s4.1 = idsOf s3.1 from rfl).trans i12
  have i14 := (show idsOf s5.1 = idsOf s4.1 from rfl).trans i13
  have i15 := (show idsOf s6.1 = idsOf s5.1 from rfl).trans i14
  have i16 := (show idsOf s7.1 = idsOf s6.1 from rfl).trans i15
  have i17 := (show idsOf s8.1 = idsOf s7.1 from rfl).trans i16
  have i18 := (show idsOf s9.1 = idsOf s8.1 from rfl).trans i17
  have i19 := (show idsOf s10.1 = idsOf s9.1 from rfl).trans i18
  have i20 := (show idsOf s11.1 = idsOf s10.1 from rfl).trans i19
  have i21 := (show idsOf t0.1 = idsOf s11.1 from rfl).trans i20
  have i22 := (show idsOf t1.1 = idsOf t0.1 from rfl).trans i21
  have i23 := (show idsOf t2.1 = idsOf t1.1 from rfl).trans i22
  have i24 := (show idsOf t3.1 = idsOf t2.1 from rfl).trans i23
  have i25 := (show idsOf t4.1 = idsOf t3.1 from rfl).trans i24
  have i26 := (show idsOf t5.1 = idsOf t4.1 from rfl).trans i25
  have I27 : idsOf rs.1 = idsOf g :=
    (show idsOf rs.1 = idsOf t5.1 from
      idsOf_addRuledSurfaces t5.1 _).trans i26
  have i28 : idsOf rsl.1 =
      (rs.1.volumeId, rs.1.surfaceloopId + 1, rs.1.arrayId) := rfl
  have hvRS : rs.1.volumeId = g.volumeId := congrArg Prod.fst I27
  have hsRS : rs.1.surfaceloopId = g.surfaceloopId :=
    congrArg (fun p => p.2.1) I27
  have haRS : rs.1.arrayId = g.arrayId :=
    congrArg (fun p => p.2.2) I27
  have hslVol : rsl.1.volumeId = g.volumeId :=
    (congrArg Prod.fst i28).trans hvRS
  have hslArr : rsl.1.arrayId = g.arrayId :=
    (congrArg (fun p => p.2.2) i28).trans haRS
  have hslSl : rsl.2 = "surfloop" ++ natStr (g.surfaceloopId + 1) :=
    (show rsl.2 = "surfloop" ++ natStr (rs.1.surfaceloopId + 1) from
      rfl).trans
      (congrArg (fun n => "surfloop" ++ natStr (n + 1)) hsRS)
  have hrarEq : rar = if holes.isEmpty then rsl
      else rsl.1.addArray (rsl.2 :: holes) := rfl
  have hKrar : countsOf rar.1 = countsOf rsl.1 := by
    rw [hrarEq]
    by_cases hH : holes.isEmpty
    · simp [hH]
    · simp only [hH, Bool.false_eq_true, if_false]
      exact countsOf_addArray rsl.1 _
  have hrarVol : rar.1.volumeId = g.volumeId := by
    rw [hrarEq]
    by_cases hH : holes.isEmpty
    · simp only [hH, if_true]
      exact hslVol
    · simp only [hH, Bool.false_eq_true, if_false]
      exact (show (rsl.1.addArray (rsl.2 :: holes)).1.volumeId =
        rsl.1.volumeId from rfl).trans hslVol
  have hrar2 : rar.2 = (if holes.isEmpty then
      "surfloop" ++ natStr (g.surfaceloopId + 1)
      else "array" ++ natStr (g.arrayId + 1) ++ "[]") := by
    rw [hrarEq]
    by_cases hH : holes.isEmpty
    · simp only [hH, if_true]
      exact hslSl
    · simp only [hH, Bool.false_eq_true, if_false]
      exact (show (rsl.1.addArray (rsl.2 :: holes)).2 =
        "array" ++ natStr (rsl.1.arrayId + 1) ++ "[]" from rfl).trans
        (congrArg (fun n => "array" ++ natStr (n + 1) ++ "[]") hslArr)
  by_cases hW : withVolume
  · simp only [hW, if_true] at hB ⊢
    have kB : countsOf B.1 = bumpVol (countsOf rar.1) := by
      rw [hB]
      by_cases hL : labelTruthy label
      · simp only [hL, if_true]
        exact (countsOf_addPhysicalVolume _ _ _).trans
          (countsOf_addVolume rar.1 rar.2)
      · simp only [hL, Bool.false_eq_true, if_false]
        exact countsOf_addVolume rar.1 rar.2
    have KB : countsOf B.1 =
        { countsOf g with
          pts := (countsOf g).pts + 8,
          lns := (countsOf g).lns + 12, lps := (countsOf g).lps + 6,
          srf := (countsOf g).srf + 6, slp := (countsOf g).slp + 1,
          vol := (countsOf g).vol + 1 } := by
      refine (kB.trans (congrArg bumpVol (hKrar.trans K0))).trans ?_
      rcases countsOf g with ⟨a1, a2, a3, a4, a5, a6⟩
      simp [bumpVol]
    have hB21 : B.2.1 = some ("vol" ++ natStr (g.volumeId + 1)) := by
      rw [hB]
      exact congrArg some
        ((show (rar.1.addVolume rar.2).2 =
          "vol" ++ natStr (rar.1.volumeId + 1) from rfl).trans
          (congrArg (fun n => "vol" ++ natStr (n + 1)) hrarVol))
    have hB22 : B.2.2 = rar.2 := by rw [hB]
    refine ⟨?_, ?_, ?_, ?_, ?_, ?_, ?_, ?_⟩
    · simpa [countsOf] using congrArg Counts.pts KB
    · simpa [countsOf] using congrArg Counts.lns KB
    · simpa [countsOf] using congrArg Counts.lps KB
    · simpa [countsOf] using congrArg Counts.srf KB
    · simpa [countsOf] using congrArg Counts.slp KB
    · simpa [countsOf] using congrArg Counts.vol KB
    · exact hB21
    · rw [hB22, hrar2]
  · simp only [hW, Bool.false_eq_true, if_false] at hB ⊢
    have KB : countsOf B.1 =
        { countsOf g with
          pts := (countsOf g).pts + 8,
          lns := (countsOf g).lns + 12, lps := (countsOf g).lps + 6,
          srf := (countsOf g).srf + 6, slp := (countsOf g).slp + 1 } := by
      rw [hB]
      exact hKrar.trans K0
    refine ⟨?_, ?_, ?_, ?_, ?_, ?_, ?_, ?_⟩
    · simpa [countsOf] using congrArg Counts.pts KB
    · simpa [countsOf] using congrArg Counts.lns KB
    · simpa [countsOf] using congrArg Counts.lps KB
    · simpa [countsOf] using congrArg Counts.srf KB
    · simpa [countsOf] using congrArg Counts.slp KB
    · simpa [countsOf] using congrArg Counts.vol KB
    · rw [hB]
    · rw [hB]
      exact hrar2

theorem pfx_add (g : Geometry) (e : Ent) :
    g.code <+: (g.add e).1.code := List.prefix_append _ _

theorem pfx_addPoint (g : Geometry) (x : Vec3) (lcar : Rat) :
    g.code <+: (g.addPoint x lcar).1.code := List.prefix_append _ _

theorem pfx_addLine (g : Geometry) (a b : Ent) :
    g.code <+: (g.addLine a b).1.code := List.prefix_append _ _

theorem pfx_addLineLoop (g : Geometry) (cs : List Ent) :
    g.code <+: (g.addLineLoop cs).1.code := List.prefix_append _ _

theorem pfx_addEllipseArc (g : Geometry) (ps : List Ent) :
    g.code <+: (g.addEllipseArc ps).1.code := List.prefix_append _ _

theorem pfx_addPlaneSurface (g : Geometry) (ll : Ent) (hs : List Ent) :
    g.code <+: (g.addPlaneSurface ll hs).1.code := List.prefix_append _ _

theorem pfx_addRuledSurface (g : Geometry) (ll : String) :
    g.code <+: (g.addRuledSurface ll).1.code := List.prefix_append _ _

theorem pfx_addCompoundSurface (g : Geometry) (ss : List String) :
    g.code <+: (g.addCompoundSurface ss).1.code := List.prefix_append _ _

theorem pfx_addSurfaceLoop (g : Geometry) (ss : List String) :
    g.code <+: (g.addSurfaceLoop ss).1.code := List.prefix_append _ _

theorem pfx_addVolume (g : Geometry) (sl : String) :
    g.code <+: (g.addVolume sl).1.code := List.prefix_append _ _

theorem pfx_addCompoundVolume (g : Geometry) (vs : List String) :
    g.code <+: (g.addCompoundVolume vs).1.code := List.prefix_append _ _

theorem pfx_addPhysicalPoint (g : Geometry) (p : String)
    (label : Option String) :
    g.code <+: (g.addPhysicalPoint p label).code := List.prefix_append _ _

theorem pfx_addPhysicalLine (g : Geometry) (l : String)
    (label : Option String) :
    g.code <+: (g.addPhysicalLine l label).code := List.prefix_append _ _

theorem pfx_addPhysicalSurface (g : Geometry) (s : String)
    (label : Option String) :
    g.code <+: (g.addPhysicalSurface s label).code :=
  List.prefix_append _ _

theorem pfx_addPhysicalVolume (g : Geometry) (v : String)
    (label : Option String) :
    g.code <+: (g.addPhysicalVolume v label).code :=
  List.prefix_append _ _

theorem pfx_extrude (g : Geometry) (ent : String)
    (t r p : Option Vec3) (a : Option String) :
    g.code <+: (g.extrude ent t r p a).1.code := by
  unfold Geometry.extrude
  rcases t with _ | t <;> rcases r with _ | r <;>
    rcases p with _ | p <;>
    simp [List.prefix_append]

theorem pfx_addBoundaryLayer (g : Geometry)
    (el fl nl : List String) (am hf hn ht rg th : Option Rat) :
    g.code <+: (g.addBoundaryLayer el fl nl am hf hn ht rg th).1.code :=
  List.prefix_append _ _

theorem pfx_addBackgroundField (g : Geometry) (fs : List String)
    (aggr : String) :
    g.code <+: (g.addBackgroundField fs aggr).1.code :=
  List.prefix_append _ _

theorem pfx_addArray (g : Geometry) (es : List String) :
    g.code <+: (g.addArray es).1.code := List.prefix_append _ _

theorem pfx_addComment (g : Geometry) (s : String) :
    g.code <+: (g.addComment s).code := List.prefix_append _ _

theorem pfx_addRawCode (g : Geometry) (s : String) :
    g.code <+: (g.addRawCode s).code := List.prefix_append _ _

theorem pfx_addRawCodeMany (g : Geometry) (l : List String) :
    g.code <+: (g.addRawCodeMany l).code := List.prefix_append _ _

theorem pfx_addPoints (g : Geometry) (X : List Vec3) (lcar : Rat) :
    g.code <+: (g.addPoints X lcar).1.code := by
  induction X generalizing g with
  | nil => exact List.prefix_refl _
  | cons x rest ih =>
      simp only [Geometry.addPoints]
      exact (pfx_addPoint g x lcar).trans (ih (g.addPoint x lcar).1)

theorem pfx_addChainLines (g : Geometry) (a : Ent) (rest : List Ent) :
    g.code <+: (g.addChainLines a rest).1.code := by
  induction rest generalizing g a with
  | nil => exact List.prefix_refl _
  | cons b more ih =>
      simp only [Geometry.addChainLines]
      exact (pfx_addLine g a b).trans (ih (g.addLine a b).1 b)

theorem pfx_addRuledSurfaces (g : Geometry) (ls : List Ent) :
    g.code <+: (g.addRuledSurfaces ls).1.code := by
  induction ls generalizing g with
  | nil => exact List.prefix_refl _
  | cons l rest ih =>
      simp only [Geometry.addRuledSurfaces]
      exact (pfx_addRuledSurface g l.id).trans
        (ih (g.addRuledSurface l.id).1)

theorem pfx_addPolygonLoop (g : Geometry) (X : List Vec3) (lcar : Rat) :
    g.code <+: (g.addPolygonLoop X lcar).1.code := by
  unfold Geometry.addPolygonLoop
  lift_lets
  extract_lets rp
  have h0 : g.code <+: rp.1.code := pfx_addPoints g X lcar
  split
  · exact h0
  · lift_lets
    extract_lets rl rc rll
    exact h0.trans
      ((show rp.1.code <+: rl.1.code from
          pfx_addChainLines _ _ _).trans
        ((show rl.1.code <+: rc.1.code from pfx_addLine _ _ _).trans
          (show rc.1.code <+: rll.1.code from pfx_addLineLoop _ _)))

theorem pfx_addPolygon (g : Geometry) (X : List Vec3) (lcar : Rat)
    (holes : List Ent) :
    g.code <+: (g.addPolygon X lcar holes).1.code := by
  unfold Geometry.addPolygon
  lift_lets
  extract_lets rll
  have h0 : g.code <+: rll.1.code := pfx_addPolygonLoop g X lcar
  split
  · exact h0
  · lift_lets
    extract_lets rq
    exact h0.trans
      (show rll.1.code <+: rq.1.code from pfx_addPlaneSurface _ _ _)

theorem pfx_addRectangle (g : Geometry)
    (xmin xmax ymin ymax z lcar : Rat) (holes : List Ent) :
    g.code <+: (g.addRectangle xmin xmax ymin ymax z lcar holes).1.code :=
  pfx_addPolygon g _ lcar holes

theorem countP_flatten_zero (p : Stmt → Bool) :
    ∀ (l : List Ent), (∀ e ∈ l, List.countP p e.code = 0) →
      List.countP p (l.map Ent.code).flatten = 0 := by
  intro l
  induction l with
  | nil => intro _; rfl
  | cons e rest ih =>
      intro h
      simp only [List.map_cons, List.flatten_cons, List.countP_append]
      rw [h e (List.mem_cons_self e rest), ih
        (fun x hx => h x (List.mem_cons_of_mem e hx))]

theorem mkCirclePoints_spec (x0 : Vec3) (radius lcar : Rat) (Rm : Mat3) :
    ∀ (n : Nat) (g : Geometry),
      (g.mkCirclePoints x0 radius lcar Rm n).1.code = g.code ∧
      (g.mkCirclePoints x0 radius lcar Rm n).1.volumeId = g.volumeId ∧
      ∀ e ∈ (g.mkCirclePoints x0 radius lcar Rm n).2,
        List.countP isVolumeDef e.code = 0 := by
  intro n
  induction n with
  | zero => intro g; exact ⟨rfl, rfl, by simp [Geometry.mkCirclePoints]⟩
  | succ k ih =>
      intro g
      simp only [Geometry.mkCirclePoints]
      obtain ⟨h1, h2, h3⟩ :=
        ih (g.mkPoint (vadd x0 (matVec Rm (radius, 0, 0))) lcar).1
      refine ⟨h1.trans rfl, h2.trans rfl, ?_⟩
      intro e he
      rcases List.mem_cons.mp he with rfl | he2
      · simp [Geometry.mkPoint, isVolumeDef]
      · exact h3 e he2

theorem mkCircleArcs_spec :
    ∀ (rest : List Ent) (g : Geometry) (first a : Ent),
      (g.mkCircleArcs first a rest).1.code = g.code ∧
      (g.mkCircleArcs first a rest).1.volumeId = g.volumeId ∧
      ∀ e ∈ (g.mkCircleArcs first a rest).2,
        List.countP isVolumeDef e.code = 0 := by
  intro rest
  induction rest with
  | nil =>
      intro g first a
      refine ⟨rfl, rfl, ?_⟩
      intro e he
      rcases List.mem_singleton.mp he with rfl
      simp [isVolumeDef]
  | cons b more ih =>
      intro g first a
      simp only [Geometry.mkCircleArcs]
      obtain ⟨h1, h2, h3⟩ :=
        ih ({ g with circlearcId := g.circlearcId + 1 }) first b
      refine ⟨h1.trans rfl, h2.trans rfl, ?_⟩
      intro e he
      rcases List.mem_cons.mp he with rfl | he2
      · simp [isVolumeDef]
      · exact h3 e he2

theorem isVolumeDef_point (n : String) (x : Vec3) (l : Rat) :
    isVolumeDef (Stmt.point n x l) = false := rfl

theorem isVolumeDef_lineLoop (n : String) (cs : List String) :
    isVolumeDef (Stmt.lineLoop n cs) = false := rfl

theorem isVolumeDef_circleArc (n : String) (ps : List String) :
    isVolumeDef (Stmt.circleArc n ps) = false := rfl

theorem isVolumeDef_planeSurface (n : String) (ls : List String) :
    isVolumeDef (Stmt.planeSurface n ls) = false := rfl

theorem mkCircle_spec (g : Geometry) (x0 : Vec3) (radius lcar : Rat)
    (Rm : Mat3) (ns : Nat) (ms : Bool) (holes : List Ent) :
    (g.mkCircle x0 radius lcar Rm ns ms holes).1.code = g.code ∧
    (g.mkCircle x0 radius lcar Rm ns ms holes).1.volumeId = g.volumeId ∧
    List.countP isVolumeDef
      (g.mkCircle x0 radius lcar Rm ns ms holes).2.code = 0 := by
  obtain ⟨hp1, hp2, hp3⟩ := mkCirclePoints_spec x0 radius lcar Rm ns g
  unfold Geometry.mkCircle
  lift_lets
  extract_lets rp
  have hrp1 : rp.1.code = g.code := hp1
  have hrp2 : rp.1.volumeId = g.volumeId := hp2
  have hrp3 : ∀ e ∈ rp.2, List.countP isVolumeDef e.code = 0 := hp3
  rcases hqs : rp.2 with _ | ⟨q, qs⟩
  · simp only [hqs]
    cases ms <;>
      simp [Geometry.mkLineLoop, Geometry.mkPlaneSurface,
        isVolumeDef_lineLoop, isVolumeDef_planeSurface, hrp1, hrp2]
  · obtain ⟨ha1, ha2, ha3⟩ := mkCircleArcs_spec qs rp.1 q q
    have hflat1 : List.countP isVolumeDef
        (((q :: qs).map Ent.code).flatten) = 0 :=
      countP_flatten_zero _ (q :: qs) (fun e he => hrp3 e (hqs ▸ he))
    have hflat2 : List.countP isVolumeDef
        (((rp.1.mkCircleArcs q q qs).2.map Ent.code).flatten) = 0 :=
      countP_flatten_zero _ _ ha3
    simp only [hqs]
    cases ms <;>
      simp only [Geometry.mkLineLoop, Geometry.mkPlaneSurface,
        List.countP_append, List.countP_cons, List.countP_nil,
        isVolumeDef_lineLoop, isVolumeDef_planeSurface,
        if_true, if_false, Bool.false_eq_true] <;>
      exact ⟨ha1.trans hrp1, ha2.trans hrp2, by
        rw [hflat1, hflat2]⟩

theorem addCircle_spec (g : Geometry) (x0 : Vec3) (radius lcar : Rat)
    (Rm : Mat3) (ns : Nat) (ms : Bool) (holes : List Ent) :
    g.code <+: (g.addCircle x0 radius lcar Rm ns ms holes).1.code ∧
    defCount isVolumeDef
        (g.addCircle x0 radius lcar Rm ns ms holes).1.code =
      defCount isVolumeDef g.code ∧
    (g.addCircle x0 radius lcar Rm ns ms holes).1.volumeId =
      g.volumeId := by
  obtain ⟨h1, h2, h3⟩ := mkCircle_spec g x0 radius lcar Rm ns ms holes
  unfold Geometry.addCircle
  lift_lets
  extract_lets rc
  have hc1 : rc.1.code = g.code := h1
  have hc2 : rc.1.volumeId = g.volumeId := h2
  have hc3 : List.countP isVolumeDef rc.2.code = 0 := h3
  refine ⟨?_, ?_, hc2⟩
  · show g.code <+: rc.1.code ++ rc.2.code
    rw [hc1]
    exact List.prefix_append _ _
  · show defCount isVolumeDef (rc.1.code ++ rc.2.code) = _
    unfold defCount
    rw [List.countP_append, hc1, hc3]
    omega

theorem isVolumeDef_extrudeRot (n : String) (r p : Vec3)
    (a ent : String) :
    isVolumeDef (Stmt.extrudeRot n r p a ent) = false := rfl

theorem extrudeLinesRound_spec (rot pt : Vec3) (angle : String) :
    ∀ (previous : List String) (g : Geometry),
      g.code <+: (g.extrudeLinesRound rot pt angle previous).1.code ∧
      defCount isVolumeDef
          (g.extrudeLinesRound rot pt angle previous).1.code =
        defCount isVolumeDef g.code ∧
      (g.extrudeLinesRound rot pt angle previous).1.volumeId =
        g.volumeId ∧
      ∃ pr sf, (g.extrudeLinesRound rot pt angle previous).2 =
        Except.ok (pr, sf) := by
  intro previous
  induction previous with
  | nil =>
      intro g
      exact ⟨List.prefix_refl _, rfl, rfl, ⟨[], [], rfl⟩⟩
  | cons id0 rest ih =>
      intro g
      have base : defCount isVolumeDef (g.code ++ [Stmt.extrudeRot
          ("ex" ++ natStr (g.extrudeId + 1)) rot pt (optStr (some angle))
          ("Line\x7b" ++ id0 ++ "\x7d")]) =
          defCount isVolumeDef g.code := by
        unfold defCount
        rw [List.countP_append]
        simp [isVolumeDef_extrudeRot]
      simp only [Geometry.extrudeLinesRound, Geometry.extrude]
      split
      · rename_i g2 e heq
        obtain ⟨p1, p2, p3, ⟨pr, sf, hok⟩⟩ :=
          ih { g with
               extrudeId := g.extrudeId + 1,
               code := g.code ++ [Stmt.extrudeRot
                 ("ex" ++ natStr (g.extrudeId + 1)) rot pt
                 (optStr (some angle)) ("Line\x7b" ++ id0 ++ "\x7d")] }
        have hok2 : (g2, Except.error (ε := String) e).2 =
            Except.ok (pr, sf) := heq ▸ hok
        simp at hok2
      · rename_i g2 prev2 surfs2 heq
        obtain ⟨p1, p2, p3, _⟩ :=
          ih { g with
               extrudeId := g.extrudeId + 1,
               code := g.code ++ [Stmt.extrudeRot
                 ("ex" ++ natStr (g.extrudeId + 1)) rot pt
                 (optStr (some angle)) ("Line\x7b" ++ id0 ++ "\x7d")] }
        rw [heq] at p1 p2 p3
        refine ⟨?_, ?_, ?_, ⟨_, _, rfl⟩⟩
        · exact (List.prefix_append _ _).trans p1
        · exact p2.trans base
        · exact p3

theorem vol_addComment (g : Geometry) (s : String) :
    defCount isVolumeDef (g.addComment s).code =
      defCount isVolumeDef g.code := by
  simp [Geometry.addComment, defCount, List.countP_append,
    List.countP_cons, isVolumeDef]

theorem vol_addSurfaceLoop (g : Geometry) (ss : List String) :
    defCount isVolumeDef (g.addSurfaceLoop ss).1.code =
      defCount isVolumeDef g.code := by
  simp [Geometry.addSurfaceLoop, defCount, List.countP_append,
    List.countP_cons, isVolumeDef]

theorem vol_addVolume (g : Geometry) (sl : String) :
    defCount isVolumeDef (g.addVolume sl).1.code =
      defCount isVolumeDef g.code + 1 := by
  simp [Geometry.addVolume, defCount, List.countP_append,
    List.countP_cons, isVolumeDef]

theorem vol_addCompoundVolume (g : Geometry) (vs : List String) :
    defCount isVolumeDef (g.addCompoundVolume vs).1.code =
      defCount isVolumeDef g.code + 1 := by
  simp [Geometry.addCompoundVolume, defCount, List.countP_append,
    List.countP_cons, isVolumeDef]

theorem vol_addPhysicalVolume (g : Geometry) (v : String)
    (label : Option String) :
    defCount isVolumeDef (g.addPhysicalVolume v label).code =
      defCount isVolumeDef g.code := by
  cases label <;>
    simp [Geometry.addPhysicalVolume, Geometry.newPhysicalGroup, defCount,
      List.countP_append, List.countP_cons, isVolumeDef]

theorem volId_addPhysicalVolume (g : Geometry) (v : String)
    (label : Option String) :
    (g.addPhysicalVolume v label).volumeId = g.volumeId := by
  cases label <;> rfl

theorem extrudeLinesRound_eq_spec (rot pt : Vec3) (a : String)
    (prev : List String) (G g2 : Geometry)
    (res : Except String (List String × List String))
    (h : G.extrudeLinesRound rot pt a prev = (g2, res)) :
    G.code <+: g2.code ∧
    defCount isVolumeDef g2.code = defCount isVolumeDef G.code ∧
    g2.volumeId = G.volumeId ∧
    ∃ pr sf, res = Except.ok (pr, sf) := by
  obtain ⟨q1, q2, q3, pr, sf, hq⟩ :=
    extrudeLinesRound_spec rot pt a prev G
  rw [h] at q1 q2 q3 hq
  exact ⟨q1, q2, q3, pr, sf, hq⟩

theorem addTorusExtrudeLines_spec (g : Geometry)
    (irad orad lcar : Rat)
    (Rm : Mat3) (x0 : Vec3) (label : Option String) (ns : Nat) :
    g.code <+:
      (g.addTorusExtrudeLines irad orad lcar Rm x0 label ns).1.code ∧
    defCount isVolumeDef
        (g.addTorusExtrudeLines irad orad lcar Rm x0 label ns).1.code =
      defCount isVolumeDef g.code + 1 ∧
    (g.addTorusExtrudeLines irad orad lcar Rm x0 label ns).1.volumeId =
      g.volumeId + 1 ∧
    (g.addTorusExtrudeLines irad orad lcar Rm x0 label ns).2 =
      Except.ok () := by
  unfold Geometry.addTorusExtrudeLines
  simp only []
  generalize hGB : (g.addComment dashes76).addComment "Torus" = GB
  have hPgb : g.code <+: GB.code := by
    rw [← hGB]
    exact (pfx_addComment g dashes76).trans
      (pfx_addComment (g.addComment dashes76) "Torus")
  have hKgb : defCount isVolumeDef GB.code =
      defCount isVolumeDef g.code := by
    rw [← hGB]
    exact (vol_addComment (g.addComment dashes76) "Torus").trans
      (vol_addComment g dashes76)
  have hIgb : GB.volumeId = g.volumeId := by
    rw [← hGB]
    exact rfl
  generalize hRC : GB.addCircle (vadd x0 (matVec Rm (0, orad, 0))) irad
      lcar (matMul Rm ((0, 0, 1), (1, 0, 0), (0, 1, 0))) ns true [] = RC
  obtain ⟨hc1, hc2, hc3⟩ := addCircle_spec GB
    (vadd x0 (matVec Rm (0, orad, 0))) irad lcar
    (matMul Rm ((0, 0, 1), (1, 0, 0), (0, 1, 0))) ns true []
  rw [hRC] at hc1 hc2 hc3
  have hP1 : g.code <+: (RC.1.addComment "Round no. 1").code :=
    ((hPgb.trans hc1).trans (pfx_addComment RC.1 "Round no. 1"))
  have hK1 : defCount isVolumeDef (RC.1.addComment "Round no. 1").code =
      defCount isVolumeDef g.code :=
    ((vol_addComment RC.1 "Round no. 1").trans hc2).trans hKgb
  have hI1 : (RC.1.addComment "Round no. 1").volumeId = g.volumeId :=
    (show (RC.1.addComment "Round no. 1").volumeId = RC.1.volumeId
      from rfl).trans (hc3.trans hIgb)
  by_cases hL : labelTruthy label
  · simp only [hL, if_true]
    split
    · rename_i g2 e heq
      obtain ⟨-, -, -, pr, sf, hres⟩ :=
        extrudeLinesRound_eq_spec _ _ _ _ _ _ _ heq
      simp at hres
    · rename_i g2 prev1 surfs1 heq
      obtain ⟨q1, q2, q3, -⟩ :=
        extrudeLinesRound_eq_spec _ _ _ _ _ _ _ heq
      have hP2 : g.code <+: g2.code := hP1.trans q1
      have hK2 : defCount isVolumeDef g2.code =
          defCount isVolumeDef g.code := q2.trans hK1
      have hI2 : g2.volumeId = g.volumeId := q3.trans hI1
      split
      · rename_i g4 e heq2
        obtain ⟨-, -, -, pr, sf, hres⟩ :=
          extrudeLinesRound_eq_spec _ _ _ _ _ _ _ heq2
        simp at hres
      · rename_i g4 prev2 surfs2 heq2
        obtain ⟨q1, q2, q3, -⟩ :=
          extrudeLinesRound_eq_spec _ _ _ _ _ _ _ heq2
        have hP4 : g.code <+: g4.code :=
          (hP2.trans (pfx_addComment g2 "Round no. 2")).trans q1
        have hK4 : defCount isVolumeDef g4.code =
            defCount isVolumeDef g.code :=
          (q2.trans (vol_addComment g2 "Round no. 2")).trans hK2
        have hI4 : g4.volumeId = g.volumeId :=
          (q3.trans (show (g2.addComment "Round no. 2").volumeId =
            g2.volumeId from rfl)).trans hI2
        split
        · rename_i g6 e heq3
          obtain ⟨-, -, -, pr, sf, hres⟩ :=
            extrudeLinesRound_eq_spec _ _ _ _ _ _ _ heq3
          simp at hres
        · rename_i g6 pv surfs3 heq3
          obtain ⟨q1, q2, q3, -⟩ :=
            extrudeLinesRound_eq_spec _ _ _ _ _ _ _ heq3
          have hP6 : g.code <+: g6.code :=
            (hP4.trans (pfx_addComment g4 "Round no. 3")).trans q1
          have hK6 : defCount isVolumeDef g6.code =
              defCount isVolumeDef g.code :=
            (q2.trans (vol_addComment g4 "Round no. 3")).trans hK4
          have hI6 : g6.volumeId = g.volumeId :=
            (q3.trans (show (g4.addComment "Round no. 3").volumeId =
              g4.volumeId from rfl)).trans hI4
          have hsl1 := pfx_addSurfaceLoop g6 (surfs1 ++ surfs2 ++ surfs3)
          have hsl2 := vol_addSurfaceLoop g6 (surfs1 ++ surfs2 ++ surfs3)
          have hsl3 : (g6.addSurfaceLoop
              (surfs1 ++ surfs2 ++ surfs3)).1.volumeId = g6.volumeId := rfl
          generalize hSL : g6.addSurfaceLoop
            (surfs1 ++ surfs2 ++ surfs3) = SL
          rw [hSL] at hsl1 hsl2 hsl3
          have hrv1 := pfx_addVolume SL.1 SL.2
          have hrv2 := vol_addVolume SL.1 SL.2
          have hrv3 : (SL.1.addVolume SL.2).1.volumeId =
              SL.1.volumeId + 1 := rfl
          generalize hRV : SL.1.addVolume SL.2 = RV
          rw [hRV] at hrv1 hrv2 hrv3
          have hPsl : g.code <+: SL.1.code := hP6.trans hsl1
          have hKsl : defCount isVolumeDef SL.1.code =
              defCount isVolumeDef g.code := hsl2.trans hK6
          have hIsl : SL.1.volumeId = g.volumeId := hsl3.trans hI6
          have hPrv : g.code <+: RV.1.code := hPsl.trans hrv1
          have hKrv : defCount isVolumeDef RV.1.code =
              defCount isVolumeDef g.code + 1 := hrv2.trans (by rw [hKsl])
          have hIrv : RV.1.volumeId = g.volumeId + 1 :=
            hrv3.trans (by rw [hIsl])
          refine ⟨?_, ?_, ?_, rfl⟩
          · exact (hPrv.trans
              (pfx_addPhysicalVolume RV.1 RV.2 label)).trans
              (pfx_addComment (RV.1.addPhysicalVolume RV.2 label)
                (dashes76 ++ "\n"))
          · exact ((vol_addComment (RV.1.addPhysicalVolume RV.2 label)
              (dashes76 ++ "\n")).trans
              (vol_addPhysicalVolume RV.1 RV.2 label)).trans hKrv
          · exact (show ((RV.1.addPhysicalVolume RV.2 label).addComment
              (dashes76 ++ "\n")).volumeId =
              (RV.1.addPhysicalVolume RV.2 label).volumeId from rfl).trans
              ((volId_addPhysicalVolume RV.1 RV.2 label).trans hIrv)
  · simp only [hL, Bool.false_eq_true, if_false]
    split
    · rename_i g2 e heq
      obtain ⟨-, -, -, pr, sf, hres⟩ :=
        extrudeLinesRound_eq_spec _ _ _ _ _ _ _ heq
      simp at hres
    · rename_i g2 prev1 surfs1 heq
      obtain ⟨q1, q2, q3, -⟩ :=
        extrudeLinesRound_eq_spec _ _ _ _ _ _ _ heq
      have hP2 : g.code <+: g2.code := hP1.trans q1
      have hK2 : defCount isVolumeDef g2.code =
          defCount isVolumeDef g.code := q2.trans hK1
      have hI2 : g2.volumeId = g.volumeId := q3.trans hI1
      split
      · rename_i g4 e heq2
        obtain ⟨-, -, -, pr, sf, hres⟩ :=
          extrudeLinesRound_eq_spec _ _ _ _ _ _ _ heq2
        simp at hres
      · rename_i g4 prev2 surfs2 heq2
        obtain ⟨q1, q2, q3, -⟩ :=
          extrudeLinesRound_eq_spec _ _ _ _ _ _ _ heq2
        have hP4 : g.code <+: g4.code :=
          (hP2.trans (pfx_addComment g2 "Round no. 2")).trans q1
        have hK4 : defCount isVolumeDef g4.code =
            defCount isVolumeDef g.code :=
          (q2.trans (vol_addComment g2 "Round no. 2")).trans hK2
        have hI4 : g4.volumeId = g.volumeId :=
          (q3.trans (show (g2.addComment "Round no. 2").volumeId =
            g2.volumeId from rfl)).trans hI2
        split
        · rename_i g6 e heq3
          obtain ⟨-, -, -, pr, sf, hres⟩ :=
            extrudeLinesRound_eq_spec _ _ _ _ _ _ _ heq3
          simp at hres
        · rename_i g6 pv surfs3 heq3
          obtain ⟨q1, q2, q3, -⟩ :=
            extrudeLinesRound_eq_spec _ _ _ _ _ _ _ heq3
          have hP6 : g.code <+: g6.code :=
            (hP4.trans (pfx_addComment g4 "Round no. 3")).trans q1
          have hK6 : defCount isVolumeDef g6.code =
              defCount isVolumeDef g.code :=
            (q2.trans (vol_addComment g4 "Round no. 3")).trans hK4
          have hI6 : g6.volumeId = g.volumeId :=
            (q3.trans (show (g4.addComment "Round no. 3").volumeId =
              g4.volumeId from rfl)).trans hI4
          have hsl1 := pfx_addSurfaceLoop g6 (surfs1 ++ surfs2 ++ surfs3)
          have hsl2 := vol_addSurfaceLoop g6 (surfs1 ++ surfs2 ++ surfs3)
          have hsl3 : (g6.addSurfaceLoop
              (surfs1 ++ surfs2 ++ surfs3)).1.volumeId = g6.volumeId := rfl
          generalize hSL : g6.addSurfaceLoop
            (surfs1 ++ surfs2 ++ surfs3) = SL
          rw [hSL] at hsl1 hsl2 hsl3
          have hrv1 := pfx_addVolume SL.1 SL.2
          have hrv2 := vol_addVolume SL.1 SL.2
          have hrv3 : (SL.1.addVolume SL.2).1.volumeId =
              SL.1.volumeId + 1 := rfl
          generalize hRV : SL.1.addVolume SL.2 = RV
          rw [hRV] at hrv1 hrv2 hrv3
          have hPsl : g.code <+: SL.1.code := hP6.trans hsl1
          have hKsl : defCount isVolumeDef SL.1.code =
              defCount isVolumeDef g.code := hsl2.trans hK6
          have hIsl : SL.1.volumeId = g.volumeId := hsl3.trans hI6
          have hPrv : g.code <+: RV.1.code := hPsl.trans hrv1
          have hKrv : defCount isVolumeDef RV.1.code =
              defCount isVolumeDef g.code + 1 := hrv2.trans (by rw [hKsl])
          have hIrv : RV.1.volumeId = g.volumeId + 1 :=
            hrv3.trans (by rw [hIsl])
          refine ⟨?_, ?_, ?_, rfl⟩
          · exact hPrv.trans (pfx_addComment RV.1 (dashes76 ++ "\n"))
          · exact (vol_addComment RV.1 (dashes76 ++ "\n")).trans hKrv
          · exact (show (RV.1.addComment (dashes76 ++ "\n")).volumeId =
              RV.1.volumeId from rfl).trans hIrv

theorem extrude_rot_eq_spec (g : Geometry) (ent : String) (r p : Vec3)
    (a : String) (g1 : Geometry) (res : Except String (Ent × Ent))
    (h : g.extrude ent none (some r) (some p) (some a) = (g1, res)) :
    g.code <+: g1.code ∧
    defCount isVolumeDef g1.code = defCount isVolumeDef g.code ∧
    g1.volumeId = g.volumeId ∧
    ∃ top vol, res = Except.ok (top, vol) := by
  have he : g.extrude ent none (some r) (some p) (some a) =
      ({ g with extrudeId := g.extrudeId + 1,
                code := g.code ++ [Stmt.extrudeRot
                  ("ex" ++ natStr (g.extrudeId + 1)) r p
                  (optStr (some a)) ent] },
       Except.ok (⟨"ex" ++ natStr (g.extrudeId + 1) ++ "[0]", []⟩,
                  ⟨"ex" ++ natStr (g.extrudeId + 1) ++ "[1]", []⟩)) := rfl
  rw [he] at h
  injection h with h1 h2
  subst h1
  subst h2
  refine ⟨List.prefix_append _ _, ?_, rfl, ⟨_, _, rfl⟩⟩
  show defCount isVolumeDef (g.code ++ [Stmt.extrudeRot
    ("ex" ++ natStr (g.extrudeId + 1)) r p (optStr (some a)) ent]) = _
  unfold defCount
  rw [List.countP_append]
  simp [isVolumeDef_extrudeRot]

theorem addTorusExtrudeCircle_spec (g : Geometry)
    (irad orad lcar : Rat)
    (Rm : Mat3) (x0 : Vec3) (label : Option String) (ns : Nat) :
    g.code <+:
      (g.addTorusExtrudeCircle irad orad lcar Rm x0 label ns).1.code ∧
    defCount isVolumeDef
        (g.addTorusExtrudeCircle irad orad lcar Rm x0 label ns).1.code =
      defCount isVolumeDef g.code + 1 ∧
    (g.addTorusExtrudeCircle irad orad lcar Rm x0 label ns).1.volumeId =
      g.volumeId + 1 ∧
    (g.addTorusExtrudeCircle irad orad lcar Rm x0 label ns).2 =
      Except.ok () := by
  unfold Geometry.addTorusExtrudeCircle
  simp only []
  generalize hGB : (g.addComment dashes76).addComment "Torus" = GB
  have hPgb : g.code <+: GB.code := by
    rw [← hGB]
    exact (pfx_addComment g dashes76).trans
      (pfx_addComment (g.addComment dashes76) "Torus")
  have hKgb : defCount isVolumeDef GB.code =
      defCount isVolumeDef g.code := by
    rw [← hGB]
    exact (vol_addComment (g.addComment dashes76) "Torus").trans
      (vol_addComment g dashes76)
  have hIgb : GB.volumeId = g.volumeId := by
    rw [← hGB]
    exact rfl
  generalize hRC : GB.addCircle (vadd x0 (matVec Rm (0, orad, 0))) irad
      lcar (matMul Rm ((0, 0, 1), (1, 0, 0), (0, 1, 0))) ns true [] = RC
  obtain ⟨hc1, hc2, hc3⟩ := addCircle_spec GB
    (vadd x0 (matVec Rm (0, orad, 0))) irad lcar
    (matMul Rm ((0, 0, 1), (1, 0, 0), (0, 1, 0))) ns true []
  rw [hRC] at hc1 hc2 hc3
  have hP0 : g.code <+: RC.1.code := hPgb.trans hc1
  have hK0 : defCount isVolumeDef RC.1.code =
      defCount isVolumeDef g.code := hc2.trans hKgb
  have hI0 : RC.1.volumeId = g.volumeId := hc3.trans hIgb
  by_cases hL : labelTruthy label
  · simp only [hL, if_true]
    split
    · rename_i g1 e heq
      obtain ⟨-, -, -, top, vol, hres⟩ :=
        extrude_rot_eq_spec _ _ _ _ _ _ _ heq
      simp at hres
    · rename_i g1 top1 vol1 heq
      obtain ⟨q1, q2, q3, -⟩ := extrude_rot_eq_spec _ _ _ _ _ _ _ heq
      have hP1 : g.code <+: g1.code := hP0.trans q1
      have hK1 : defCount isVolumeDef g1.code =
          defCount isVolumeDef g.code := q2.trans hK0
      have hI1 : g1.volumeId = g.volumeId := q3.trans hI0
      split
      · rename_i g2 e heq2
        obtain ⟨-, -, -, top, vol, hres⟩ :=
          extrude_rot_eq_spec _ _ _ _ _ _ _ heq2
        simp at hres
      · rename_i g2 top2 vol2 heq2
        obtain ⟨q1, q2, q3, -⟩ := extrude_rot_eq_spec _ _ _ _ _ _ _ heq2
        have hP2 : g.code <+: g2.code := hP1.trans q1
        have hK2 : defCount isVolumeDef g2.code =
            defCount isVolumeDef g.code := q2.trans hK1
        have hI2 : g2.volumeId = g.volumeId := q3.trans hI1
        split
        · rename_i g3 e heq3
          obtain ⟨-, -, -, top, vol, hres⟩ :=
            extrude_rot_eq_spec _ _ _ _ _ _ _ heq3
          simp at hres
        · rename_i g3 top3 vol3 heq3
          obtain ⟨q1, q2, q3, -⟩ :=
            extrude_rot_eq_spec _ _ _ _ _ _ _ heq3
          have hP3 : g.code <+: g3.code := hP2.trans q1
          have hK3 : defCount isVolumeDef g3.code =
              defCount isVolumeDef g.code := q2.trans hK2
          have hI3 : g3.volumeId = g.volumeId := q3.trans hI2
          have hrv1 := pfx_addCompoundVolume g3
            [vol1.id, vol2.id, vol3.id]
          have hrv2 := vol_addCompoundVolume g3
            [vol1.id, vol2.id, vol3.id]
          have hrv3 : (g3.addCompoundVolume
              [vol1.id, vol2.id, vol3.id]).1.volumeId =
              g3.volumeId + 1 := rfl
          generalize hRV : g3.addCompoundVolume
            [vol1.id, vol2.id, vol3.id] = RV
          rw [hRV] at hrv1 hrv2 hrv3
          have hPrv : g.code <+: RV.1.code := hP3.trans hrv1
          have hKrv : defCount isVolumeDef RV.1.code =
              defCount isVolumeDef g.code + 1 := hrv2.trans (by rw [hK3])
          have hIrv : RV.1.volumeId = g.volumeId + 1 :=
            hrv3.trans (by rw [hI3])
          refine ⟨?_, ?_, ?_, rfl⟩
          · exact (hPrv.trans
              (pfx_addPhysicalVolume RV.1 RV.2 label)).trans
              (pfx_addComment (RV.1.addPhysicalVolume RV.2 label)
                (dashes76 ++ "\n"))
          · exact ((vol_addComment (RV.1.addPhysicalVolume RV.2 label)
              (dashes76 ++ "\n")).trans
              (vol_addPhysicalVolume RV.1 RV.2 label)).trans hKrv
          · exact (show ((RV.1.addPhysicalVolume RV.2 label).addComment
              (dashes76 ++ "\n")).volumeId =
              (RV.1.addPhysicalVolume RV.2 label).volumeId from rfl).trans
              ((volId_addPhysicalVolume RV.1 RV.2 label).trans hIrv)
  · simp only [hL, Bool.false_eq_true, if_false]
    split
    · rename_i g1 e heq
      obtain ⟨-, -, -, top, vol, hres⟩ :=
        extrude_rot_eq_spec _ _ _ _ _ _ _ heq
      simp at hres
    · rename_i g1 top1 vol1 heq
      obtain ⟨q1, q2, q3, -⟩ := extrude_rot_eq_spec _ _ _ _ _ _ _ heq
      have hP1 : g.code <+: g1.code := hP0.trans q1
      have hK1 : defCount isVolumeDef g1.code =
          defCount isVolumeDef g.code := q2.trans hK0
      have hI1 : g1.volumeId = g.volumeId := q3.trans hI0
      split
      · rename_i g2 e heq2
        obtain ⟨-, -, -, top, vol, hres⟩ :=
          extrude_rot_eq_spec _ _ _ _ _ _ _ heq2
        simp at hres
      · rename_i g2 top2 vol2 heq2
        obtain ⟨q1, q2, q3, -⟩ := extrude_rot_eq_spec _ _ _ _ _ _ _ heq2
        have hP2 : g.code <+: g2.code := hP1.trans q1
        have hK2 : defCount isVolumeDef g2.code =
            defCount isVolumeDef g.code := q2.trans hK1
        have hI2 : g2.volumeId = g.volumeId := q3.trans hI1
        split
        · rename_i g3 e heq3
          obtain ⟨-, -, -, top, vol, hres⟩ :=
            extrude_rot_eq_spec _ _ _ _ _ _ _ heq3
          simp at hres
        · rename_i g3 top3 vol3 heq3
          obtain ⟨q1, q2, q3, -⟩ :=
            extrude_rot_eq_spec _ _ _ _ _ _ _ heq3
          have hP3 : g.code <+: g3.code := hP2.trans q1
          have hK3 : defCount isVolumeDef g3.code =
              defCount isVolumeDef g.code := q2.trans hK2
          have hI3 : g3.volumeId = g.volumeId := q3.trans hI2
          have hrv1 := pfx_addCompoundVolume g3
            [vol1.id, vol2.id, vol3.id]
          have hrv2 := vol_addCompoundVolume g3
            [vol1.id, vol2.id, vol3.id]
          have hrv3 : (g3.addCompoundVolume
              [vol1.id, vol2.id, vol3.id]).1.volumeId =
              g3.volumeId + 1 := rfl
          generalize hRV : g3.addCompoundVolume
            [vol1.id, vol2.id, vol3.id] = RV
          rw [hRV] at hrv1 hrv2 hrv3
          have hPrv : g.code <+: RV.1.code := hP3.trans hrv1
          have hKrv : defCount isVolumeDef RV.1.code =
              defCount isVolumeDef g.code + 1 := hrv2.trans (by rw [hK3])
          have hIrv : RV.1.volumeId = g.volumeId + 1 :=
            hrv3.trans (by rw [hI3])
          refine ⟨?_, ?_, ?_, rfl⟩
          · exact hPrv.trans (pfx_addComment RV.1 (dashes76 ++ "\n"))
          · exact (vol_addComment RV.1 (dashes76 ++ "\n")).trans hKrv
          · exact (show (RV.1.addComment (dashes76 ++ "\n")).volumeId =
              RV.1.volumeId from rfl).trans hIrv

/-- C3: `add_torus` with a recognized variant (`extrude_lines` or
`extrude_circle`) and inner radius strictly below the outer radius
completes without failing, emits exactly one final volume-defining
statement (a `Volume` for the line variant, a compound volume for the
circle variant), and allocates exactly one new volume handle (the
volume counter advances by exactly one). -/
theorem claim_C3 (g : Geometry) (irad orad lcar : Rat) (Rm : Mat3)
    (x0 : Vec3) (label : Option String) (variant : String) (ns : Nat)
    (hvar : variant = "extrude_lines" ∨ variant = "extrude_circle")
    (hrad : irad < orad) :
    (g.addTorus irad orad lcar Rm x0 label variant ns).2 =
      Except.ok () ∧
    defCount isVolumeDef
        (g.addTorus irad orad lcar Rm x0 label variant ns).1.code =
      defCount isVolumeDef g.code + 1 ∧
    (g.addTorus irad orad lcar Rm x0 label variant ns).1.volumeId =
      g.volumeId + 1 := by
  rcases hvar with rfl | rfl
  · have e : g.addTorus irad orad lcar Rm x0 label "extrude_lines" ns =
        g.addTorusExtrudeLines irad orad lcar Rm x0 label ns := by
      unfold Geometry.addTorus
      rw [if_pos rfl]
    rw [e]
    obtain ⟨-, h2, h3, h4⟩ :=
      addTorusExtrudeLines_spec g irad orad lcar Rm x0 label ns
    exact ⟨h4, h2, h3⟩
  · have e : g.addTorus irad orad lcar Rm x0 label "extrude_circle" ns =
        g.addTorusExtrudeCircle irad orad lcar Rm x0 label ns := by
      unfold Geometry.addTorus
      rw [if_neg (by decide), if_pos rfl]
    rw [e]
    obtain ⟨-, h2, h3, h4⟩ :=
      addTorusExtrudeCircle_spec g irad orad lcar Rm x0 label ns
    exact ⟨h4, h2, h3⟩

/-- Witness for C3: the torus of inner radius 1 and outer radius 2 under
the line-extrusion variant on a fresh session. -/
theorem claim_C3_witness :
    (("extrude_lines" = "extrude_lines" ∨
        "extrude_lines" = "extrude_circle") ∧ (1 : Rat) < 2) ∧
    ((geoInit.addTorus 1 2 1 eye3 zero3 none "extrude_lines" 3).2 =
      Except.ok () ∧
    defCount isVolumeDef
        (geoInit.addTorus 1 2 1 eye3 zero3 none
          "extrude_lines" 3).1.code =
      defCount isVolumeDef geoInit.code + 1 ∧
    (geoInit.addTorus 1 2 1 eye3 zero3 none
        "extrude_lines" 3).1.volumeId =
      geoInit.volumeId + 1) :=
  ⟨⟨Or.inl rfl, by norm_num⟩,
   claim_C3 geoInit 1 2 1 eye3 zero3 none "extrude_lines" 3
     (Or.inl rfl) (by norm_num)⟩

theorem pfx_addCircle (g : Geometry) (x0 : Vec3) (radius lcar : Rat)
    (Rm : Mat3) (ns : Nat) (ms : Bool) (holes : List Ent) :
    g.code <+: (g.addCircle x0 radius lcar Rm ns ms holes).1.code :=
  (addCircle_spec g x0 radius lcar Rm ns ms holes).1

theorem pfx_addTorusExtrudeLines (g : Geometry) (irad orad lcar : Rat)
    (Rm : Mat3) (x0 : Vec3) (label : Option String) (ns : Nat) :
    g.code <+:
      (g.addTorusExtrudeLines irad orad lcar Rm x0 label ns).1.code :=
  (addTorusExtrudeLines_spec g irad orad lcar Rm x0 label ns).1

theorem pfx_addTorusExtrudeCircle (g : Geometry) (irad orad lcar : Rat)
    (Rm : Mat3) (x0 : Vec3) (label : Option String) (ns : Nat) :
    g.code <+:
      (g.addTorusExtrudeCircle irad orad lcar Rm x0 label ns).1.code :=
  (addTorusExtrudeCircle_spec g irad orad lcar Rm x0 label ns).1

theorem pfx_addTorus (g : Geometry) (irad orad lcar : Rat) (Rm : Mat3)
    (x0 : Vec3) (label : Option String) (variant : String) (ns : Nat) :
    g.code <+:
      (g.addTorus irad orad lcar Rm x0 label variant ns).1.code := by
  unfold Geometry.addTorus
  by_cases h1 : variant = "extrude_lines"
  · rw [if_pos h1]
    exact pfx_addTorusExtrudeLines g irad orad lcar Rm x0 label ns
  · rw [if_neg h1]
    by_cases h2 : variant = "extrude_circle"
    · rw [if_pos h2]
      exact pfx_addTorusExtrudeCircle g irad orad lcar Rm x0 label ns
    · rw [if_neg h2]

theorem pfx_addBox (g : Geometry) (x0 x1 y0 y1 z0 z1 lcar : Rat)
    (withVolume : Bool) (holes : List String) (label : Option String) :
    g.code <+:
      (g.addBox x0 x1 y0 y1 z0 z1 lcar withVolume holes label).1.code := by
  unfold Geometry.addBox
  lift_lets
  extract_lets r0 r1 r2 r3 r4 r5 r6 r7 p0 p1 p2 p3 p4 p5 p6 p7 s0 s1 s2 s3 s4 s5 s6 s7 s8 s9 s10 s11 e0 e1 e2 e3 e4 e5 e6 e7 e8 e9 e10 e11 t0 t1 t2 t3 t4 t5 rs rsl rar
  have h0 : g.code <+: r0.1.code := pfx_addPoint g _ lcar
  have h1 : r0.1.code <+: r1.1.code := pfx_addPoint r0.1 _ lcar
  have h2 : r1.1.code <+: r2.1.code := pfx_addPoint r1.1 _ lcar
  have h3 : r2.1.code <+: r3.1.code := pfx_addPoint r2.1 _ lcar
  have h4 : r3.1.code <+: r4.1.code := pfx_addPoint r3.1 _ lcar
  have h5 : r4.1.code <+: r5.1.code := pfx_addPoint r4.1 _ lcar
  have h6 : r5.1.code <+: r6.1.code := pfx_addPoint r5.1 _ lcar
  have h7 : r6.1.code <+: r7.1.code := pfx_addPoint r6.1 _ lcar
  have h8 : r7.1.code <+: s0.1.code := pfx_addLine r7.1 _ _
  have h9 : s0.1.code <+: s1.1.code := pfx_addLine s0.1 _ _
  have h10 : s1.1.code <+: s2.1.code := pfx_addLine s1.1 _ _
  have h11 : s2.1.code <+: s3.1.code := pfx_addLine s2.1 _ _
  have h12 : s3.1.code <+: s4.1.code := pfx_addLine s3.1 _ _
  have h13 : s4.1.code <+: s5.1.code := pfx_addLine s4.1 _ _
  have h14 : s5.1.code <+: s6.1.code := pfx_addLine s5.1 _ _
  have h15 : s6.1.code <+: s7.1.code := pfx_addLine s6.1 _ _
  have h16 : s7.1.code <+: s8.1.code := pfx_addLine s7.1 _ _
  have h17 : s8.1.code <+: s9.1.code := pfx_addLine s8.1 _ _
  have h18 : s9.1.code <+: s10.1.code := pfx_addLine s9.1 _ _
  have h19 : s10.1.code <+: s11.1.code := pfx_addLine s10.1 _ _
  have h20 : s11.1.code <+: t0.1.code := pfx_addLineLoop s11.1 _
  have h21 : t0.1.code <+: t1.1.code := pfx_addLineLoop t0.1 _
  have h22 : t1.1.code <+: t2.1.code := pfx_addLineLoop t1.1 _
  have h23 : t2.1.code <+: t3.1.code := pfx_addLineLoop t2.1 _
  have h24 : t3.1.code <+: t4.1.code := pfx_addLineLoop t3.1 _
  have h25 : t4.1.code <+: t5.1.code := pfx_addLineLoop t4.1 _
  have h26 : t5.1.code <+: rs.1.code := pfx_addRuledSurfaces t5.1 _
  have h27 : rs.1.code <+: rsl.1.code := pfx_addSurfaceLoop rs.1 _
  have H : g.code <+: rsl.1.code :=
    (((((((((((((((((((((((((((h0.trans h1).trans h2).trans h3).trans h4).trans h5).trans h6).trans h7).trans h8).trans h9).trans h10).trans h11).trans h12).trans h13).trans h14).trans h15).trans h16).trans h17).trans h18).trans h19).trans h20).trans h21).trans h22).trans h23).trans h24).trans h25).trans h26).trans h27)
  have Hr : g.code <+: rar.1.code := by
    show g.code <+: (if holes.isEmpty then rsl
      else rsl.1.addArray (rsl.2 :: holes)).1.code
    by_cases hH : holes.isEmpty
    · simp only [hH, if_true]
      exact H
    · simp only [hH, Bool.false_eq_true, if_false]
      exact H.trans (pfx_addArray rsl.1 _)
  by_cases hW : withVolume
  · simp only [hW, if_true]
    by_cases hL : labelTruthy label
    · simp only [hL, if_true]
      exact (Hr.trans (pfx_addVolume rar.1 rar.2)).trans
        (pfx_addPhysicalVolume (rar.1.addVolume rar.2).1
          (rar.1.addVolume rar.2).2 label)
    · simp only [hL, Bool.false_eq_true, if_false]
      exact Hr.trans (pfx_addVolume rar.1 rar.2)
  · simp only [hW, Bool.false_eq_true, if_false]
    exact Hr

theorem pfx_addEllipsoid (g : Geometry) (x0 radii : Vec3) (lcar : Rat)
    (withVolume : Bool) (holes : List String) (label : Option String) :
    g.code <+:
      (g.addEllipsoid x0 radii lcar withVolume holes label).1.code := by
  unfold Geometry.addEllipsoid
  lift_lets
  extract_lets r0 r1 r2 r3 r4 r5 r6 p0 p1 p2 p3 p4 p5 p6 a0 a1 a2 a3 a4 a5 a6 a7 a8 a9 a10 a11 c0 c1 c2 c3 c4 c5 c6 c7 c8 c9 c10 c11 t0 t1 t2 t3 t4 t5 t6 t7 rs rc1 rc2 rsl rar
  have h0 : g.code <+: r0.1.code := pfx_addPoint g _ lcar
  have h1 : r0.1.code <+: r1.1.code := pfx_addPoint r0.1 _ lcar
  have h2 : r1.1.code <+: r2.1.code := pfx_addPoint r1.1 _ lcar
  have h3 : r2.1.code <+: r3.1.code := pfx_addPoint r2.1 _ lcar
  have h4 : r3.1.code <+: r4.1.code := pfx_addPoint r3.1 _ lcar
  have h5 : r4.1.code <+: r5.1.code := pfx_addPoint r4.1 _ lcar
  have h6 : r5.1.code <+: r6.1.code := pfx_addPoint r5.1 _ lcar
  have h7 : r6.1.code <+: a0.1.code := pfx_addEllipseArc r6.1 _
  have h8 : a0.1.code <+: a1.1.code := pfx_addEllipseArc a0.1 _
  have h9 : a1.1.code <+: a2.1.code := pfx_addEllipseArc a1.1 _
  have h10 : a2.1.code <+: a3.1.code := pfx_addEllipseArc a2.1 _
  have h11 : a3.1.code <+: a4.1.code := pfx_addEllipseArc a3.1 _
  have h12 : a4.1.code <+: a5.1.code := pfx_addEllipseArc a4.1 _
  have h13 : a5.1.code <+: a6.1.code := pfx_addEllipseArc a5.1 _
  have h14 : a6.1.code <+: a7.1.code := pfx_addEllipseArc a6.1 _
  have h15 : a7.1.code <+: a8.1.code := pfx_addEllipseArc a7.1 _
  have h16 : a8.1.code <+: a9.1.code := pfx_addEllipseArc a8.1 _
  have h17 : a9.1.code <+: a10.1.code := pfx_addEllipseArc a9.1 _
  have h18 : a10.1.code <+: a11.1.code := pfx_addEllipseArc a10.1 _
  have h19 : a11.1.code <+: t0.1.code := pfx_addLineLoop a11.1 _
  have h20 : t0.1.code <+: t1.1.code := pfx_addLineLoop t0.1 _
  have h21 : t1.1.code <+: t2.1.code := pfx_addLineLoop t1.1 _
  have h22 : t2.1.code <+: t3.1.code := pfx_addLineLoop t2.1 _
  have h23 : t3.1.code <+: t4.1.code := pfx_addLineLoop t3.1 _
  have h24 : t4.1.code <+: t5.1.code := pfx_addLineLoop t4.1 _
  have h25 : t5.1.code <+: t6.1.code := pfx_addLineLoop t5.1 _
  have h26 : t6.1.code <+: t7.1.code := pfx_addLineLoop t6.1 _
  have h27 : t7.1.code <+: rs.1.code := pfx_addRuledSurfaces t7.1 _
  have h28 : rs.1.code <+: rc1.1.code := pfx_addCompoundSurface rs.1 _
  have h29 : rc1.1.code <+: rc2.1.code := pfx_addCompoundSurface rc1.1 _
  have h30 : rc2.1.code <+: rsl.1.code := pfx_addSurfaceLoop rc2.1 _
  have H : g.code <+: rsl.1.code :=
    ((((((((((((((((((((((((((((((h0.trans h1).trans h2).trans h3).trans h4).trans h5).trans h6).trans h7).trans h8).trans h9).trans h10).trans h11).trans h12).trans h13).trans h14).trans h15).trans h16).trans h17).trans h18).trans h19).trans h20).trans h21).trans h22).trans h23).trans h24).trans h25).trans h26).trans h27).trans h28).trans h29).trans h30)
  have Hr : g.code <+: rar.1.code := by
    show g.code <+: (if holes.isEmpty then rsl
      else rsl.1.addArray (rsl.2 :: holes)).1.code
    by_cases hH : holes.isEmpty
    · simp only [hH, if_true]
      exact H
    · simp only [hH, Bool.false_eq_true, if_false]
      exact H.trans (pfx_addArray rsl.1 _)
  by_cases hW : withVolume
  · simp only [hW, if_true]
    by_cases hL : labelTruthy label
    · simp only [hL, if_true]
      exact (Hr.trans (pfx_addVolume rar.1 rar.2)).trans
        (pfx_addPhysicalVolume (rar.1.addVolume rar.2).1
          (rar.1.addVolume rar.2).2 label)
    · simp only [hL, Bool.false_eq_true, if_false]
      exact Hr.trans (pfx_addVolume rar.1 rar.2)
  · simp only [hW, Bool.false_eq_true, if_false]
    exact Hr

theorem pfx_addBall (g : Geometry) (x0 : Vec3) (radius lcar : Rat)
    (withVolume : Bool) (holes : List String) (label : Option String) :
    g.code <+:
      (g.addBall x0 radius lcar withVolume holes label).1.code :=
  pfx_addEllipsoid g x0 (radius, radius, radius) lcar withVolume
    holes label

theorem pfx_addPipeRectangleRotation (g : Geometry)
    (outerRadius innerRadius length : Rat) (Rm : Mat3) (x0 : Vec3)
    (label : Option String) (lcar : Rat) :
    g.code <+:
      (g.addPipeRectangleRotation outerRadius innerRadius length Rm x0
        label lcar).1.code := by
  unfold Geometry.addPipeRectangleRotation
  simp only []
  generalize hRP : (g.addComment "Define rectangle.").addPoints
      (List.map (fun x => vadd (matVec Rm x) x0)
        [(0, outerRadius, -(1 / 2) * length),
          (0, outerRadius, 1 / 2 * length),
          (0, innerRadius, 1 / 2 * length),
          (0, innerRadius, -(1 / 2) * length)]) lcar = RP
  have hB : g.code <+: RP.1.code := by
    rw [← hRP]
    exact (pfx_addComment g "Define rectangle.").trans
      (pfx_addPoints (g.addComment "Define rectangle.") _ lcar)
  by_cases hL : labelTruthy label
  · simp only [hL, if_true]
    split
    · rename_i q0 q1 q2 q3 heq
      have hS1 : g.code <+:
          (((((((RP.1.addLine q0 q1).1.addLine q1 q2).1.addLine
            q2 q3).1.addLine q3 q0).1.addComment
            "Extrude in 3 steps.").addComment "Step 1")).code :=
        ((((((hB.trans (pfx_addLine RP.1 q0 q1)).trans
          (pfx_addLine _ q1 q2)).trans
          (pfx_addLine _ q2 q3)).trans
          (pfx_addLine _ q3 q0)).trans
          (pfx_addComment _ "Extrude in 3 steps.")).trans
          (pfx_addComment _ "Step 1"))
      split
      · rename_i g3 e heq1
        obtain ⟨p1, -, -, -⟩ :=
          extrudeLinesRound_eq_spec _ _ _ _ _ _ _ heq1
        exact hS1.trans p1
      · rename_i g3 prev1 surfs1 heq1
        obtain ⟨p1, -, -, -⟩ :=
          extrudeLinesRound_eq_spec _ _ _ _ _ _ _ heq1
        have hG3 : g.code <+: g3.code := hS1.trans p1
        have hS2 : g.code <+: (g3.addComment "Step 2").code :=
          hG3.trans (pfx_addComment g3 "Step 2")
        split
        · rename_i g5 e heq2
          obtain ⟨p2, -, -, -⟩ :=
            extrudeLinesRound_eq_spec _ _ _ _ _ _ _ heq2
          exact hS2.trans p2
        · rename_i g5 prev2 surfs2 heq2
          obtain ⟨p2, -, -, -⟩ :=
            extrudeLinesRound_eq_spec _ _ _ _ _ _ _ heq2
          have hG5 : g.code <+: g5.code := hS2.trans p2
          have hS3 : g.code <+: (g5.addComment "Step 3").code :=
            hG5.trans (pfx_addComment g5 "Step 3")
          split
          · rename_i g7 e heq3
            obtain ⟨p3, -, -, -⟩ :=
              extrudeLinesRound_eq_spec _ _ _ _ _ _ _ heq3
            exact hS3.trans p3
          · rename_i g7 pv surfs3 heq3
            obtain ⟨p3, -, -, -⟩ :=
              extrudeLinesRound_eq_spec _ _ _ _ _ _ _ heq3
            have hG7 : g.code <+: g7.code := hS3.trans p3
            have hSL : g.code <+: (g7.addSurfaceLoop
                (surfs1 ++ surfs2 ++ surfs3)).1.code :=
              hG7.trans (pfx_addSurfaceLoop g7 _)
            have hRV : g.code <+: ((g7.addSurfaceLoop
                (surfs1 ++ surfs2 ++ surfs3)).1.addVolume
                (g7.addSurfaceLoop
                  (surfs1 ++ surfs2 ++ surfs3)).2).1.code :=
              hSL.trans (pfx_addVolume _ _)
            exact hRV.trans (pfx_addPhysicalVolume _ _ label)
    · rename_i heq
      exact hB
  · simp only [hL, Bool.false_eq_true, if_false]
    split
    · rename_i q0 q1 q2 q3 heq
      have hS1 : g.code <+:
          (((((((RP.1.addLine q0 q1).1.addLine q1 q2).1.addLine
            q2 q3).1.addLine q3 q0).1.addComment
            "Extrude in 3 steps.").addComment "Step 1")).code :=
        ((((((hB.trans (pfx_addLine RP.1 q0 q1)).trans
          (pfx_addLine _ q1 q2)).trans
          (pfx_addLine _ q2 q3)).trans
          (pfx_addLine _ q3 q0)).trans
          (pfx_addComment _ "Extrude in 3 steps.")).trans
          (pfx_addComment _ "Step 1"))
      split
      · rename_i g3 e heq1
        obtain ⟨p1, -, -, -⟩ :=
          extrudeLinesRound_eq_spec _ _ _ _ _ _ _ heq1
        exact hS1.trans p1
      · rename_i g3 prev1 surfs1 heq1
        obtain ⟨p1, -, -, -⟩ :=
          extrudeLinesRound_eq_spec _ _ _ _ _ _ _ heq1
        have hG3 : g.code <+: g3.code := hS1.trans p1
        have hS2 : g.code <+: (g3.addComment "Step 2").code :=
          hG3.trans (pfx_addComment g3 "Step 2")
        split
        · rename_i g5 e heq2
          obtain ⟨p2, -, -, -⟩ :=
            extrudeLinesRound_eq_spec _ _ _ _ _ _ _ heq2
          exact hS2.trans p2
        · rename_i g5 prev2 surfs2 heq2
          obtain ⟨p2, -, -, -⟩ :=
            extrudeLinesRound_eq_spec _ _ _ _ _ _ _ heq2
          have hG5 : g.code <+: g5.code := hS2.trans p2
          have hS3 : g.code <+: (g5.addComment "Step 3").code :=
            hG5.trans (pfx_addComment g5 "Step 3")
          split
          · rename_i g7 e heq3
            obtain ⟨p3, -, -, -⟩ :=
              extrudeLinesRound_eq_spec _ _ _ _ _ _ _ heq3
            exact hS3.trans p3
          · rename_i g7 pv surfs3 heq3
            obtain ⟨p3, -, -, -⟩ :=
              extrudeLinesRound_eq_spec _ _ _ _ _ _ _ heq3
            have hG7 : g.code <+: g7.code := hS3.trans p3
            have hSL : g.code <+: (g7.addSurfaceLoop
                (surfs1 ++ surfs2 ++ surfs3)).1.code :=
              hG7.trans (pfx_addSurfaceLoop g7 _)
            have hRV : g.code <+: ((g7.addSurfaceLoop
                (surfs1 ++ surfs2 ++ surfs3)).1.addVolume
                (g7.addSurfaceLoop
                  (surfs1 ++ surfs2 ++ surfs3)).2).1.code :=
              hSL.trans (pfx_addVolume _ _)
            exact hRV
    · rename_i heq
      exact hB

theorem extrude_trans_eq_spec (g : Geometry) (ent : String) (t : Vec3)
    (g1 : Geometry) (res : Except String (Ent × Ent))
    (h : g.extrude ent (some t) none none none = (g1, res)) :
    g.code <+: g1.code ∧
    ∃ top ext, res = Except.ok (top, ext) := by
  have he : g.extrude ent (some t) none none none =
      ({ g with extrudeId := g.extrudeId + 1,
                code := g.code ++ [Stmt.extrudeTrans
                  ("ex" ++ natStr (g.extrudeId + 1)) t ent] },
       Except.ok (⟨"ex" ++ natStr (g.extrudeId + 1) ++ "[0]", []⟩,
                  ⟨"ex" ++ natStr (g.extrudeId + 1) ++ "[1]", []⟩)) := rfl
  rw [he] at h
  injection h with h1 h2
  subst h1
  subst h2
  exact ⟨List.prefix_append _ _, ⟨_, _, rfl⟩⟩

theorem pfx_addPipeCircleExtrusion (g : Geometry)
    (outerRadius innerRadius length : Rat) (Rm : Mat3) (x0 : Vec3)
    (label : Option String) (lcar : Rat) (ns : Nat) :
    g.code <+:
      (g.addPipeCircleExtrusion outerRadius innerRadius length Rm x0
        label lcar ns).1.code := by
  unfold Geometry.addPipeCircleExtrusion
  simp only []
  generalize hRI : g.addCircle x0 innerRadius lcar
    (matMul Rm ((0, 0, 1), (1, 0, 0), (0, 1, 0))) ns false [] = RI
  have hI : g.code <+: RI.1.code := by
    rw [← hRI]
    exact pfx_addCircle g x0 innerRadius lcar
      (matMul Rm ((0, 0, 1), (1, 0, 0), (0, 1, 0))) ns false []
  generalize hRO : RI.1.addCircle x0 outerRadius lcar
    (matMul Rm ((0, 0, 1), (1, 0, 0), (0, 1, 0))) ns true
    [RI.2.lineLoop] = RO
  have hB : g.code <+: RO.1.code := by
    rw [← hRO]
    exact hI.trans (pfx_addCircle RI.1 x0 outerRadius lcar
      (matMul Rm ((0, 0, 1), (1, 0, 0), (0, 1, 0))) ns true
      [RI.2.lineLoop])
  by_cases hL : labelTruthy label
  · simp only [hL, if_true]
    split
    · rename_i g1 e heq
      obtain ⟨p1, -⟩ := extrude_trans_eq_spec _ _ _ _ _ heq
      exact hB.trans p1
    · rename_i g1 top vol heq
      obtain ⟨p1, -⟩ := extrude_trans_eq_spec _ _ _ _ _ heq
      exact (hB.trans p1).trans
        (pfx_addPhysicalVolume g1 vol.id label)
  · simp only [hL, Bool.false_eq_true, if_false]
    split
    · rename_i g1 e heq
      obtain ⟨p1, -⟩ := extrude_trans_eq_spec _ _ _ _ _ heq
      exact hB.trans p1
    · rename_i g1 top vol heq
      obtain ⟨p1, -⟩ := extrude_trans_eq_spec _ _ _ _ _ heq
      exact hB.trans p1

theorem pfx_addPipe (g : Geometry)
    (outerRadius innerRadius length : Rat) (Rm : Mat3) (x0 : Vec3)
    (label : Option String) (lcar : Rat) (variant : String) (ns : Nat) :
    g.code <+:
      (g.addPipe outerRadius innerRadius length Rm x0 label lcar
        variant ns).1.code := by
  unfold Geometry.addPipe
  by_cases h1 : variant = "rectangle_rotation"
  · rw [if_pos h1]
    split
    · rename_i g1 e heq
      have := pfx_addPipeRectangleRotation g outerRadius innerRadius
        length Rm x0 label lcar
      rw [heq] at this
      exact this
    · rename_i g1 r heq
      have := pfx_addPipeRectangleRotation g outerRadius innerRadius
        length Rm x0 label lcar
      rw [heq] at this
      exact this
  · rw [if_neg h1]
    by_cases h2 : variant = "circle_extrusion"
    · rw [if_pos h2]
      exact pfx_addPipeCircleExtrusion g outerRadius innerRadius length
        Rm x0 label lcar ns
    · rw [if_neg h2]

theorem pfx_booleanOperation (g : OCGeometry) (operation : String)
    (inputEntities toolEntities : List OCEnt) (delete : Bool) :
    g.code <+:
      (g.booleanOperation operation inputEntities toolEntities
        delete).1.code := by
  unfold OCGeometry.booleanOperation
  split
  · exact List.prefix_refl _
  · rename_i e0 rest
    split
    · exact List.prefix_refl _
    · rename_i k heq
      by_cases hA : (rest ++ toolEntities).all (fun e => e.kind = some k)
      · simp only [hA, if_true]
        exact List.prefix_append _ _
      · simp only [hA, Bool.false_eq_true, if_false]
        exact List.prefix_refl _

theorem pfx_booleanIntersection (g : OCGeometry) (entities : List OCEnt)
    (delete : Bool) :
    g.code <+: (g.booleanIntersection entities delete).1.code := by
  unfold OCGeometry.booleanIntersection
  split
  · rename_i e rest
    by_cases hE : rest.isEmpty
    · simp only [hE, if_true]
      exact List.prefix_refl _
    · simp only [hE, Bool.false_eq_true, if_false]
      exact pfx_booleanOperation g "BooleanIntersection" [e] rest delete
  · exact List.prefix_refl _

theorem pfx_booleanUnion (g : OCGeometry) (entities : List OCEnt)
    (delete : Bool) :
    g.code <+: (g.booleanUnion entities delete).1.code := by
  unfold OCGeometry.booleanUnion
  split
  · rename_i e rest
    exact pfx_booleanOperation g "BooleanUnion" [e] rest delete
  · exact List.prefix_refl _

theorem pfx_booleanDifference (g : OCGeometry)
    (inputEntities toolEntities : List OCEnt) (delete : Bool) :
    g.code <+:
      (g.booleanDifference inputEntities toolEntities delete).1.code :=
  pfx_booleanOperation g "BooleanDifference" inputEntities toolEntities
    delete

theorem pfx_booleanFragments (g : OCGeometry)
    (inputEntities toolEntities : List OCEnt) (delete : Bool) :
    g.code <+:
      (g.booleanFragments inputEntities toolEntities delete).1.code :=
  pfx_booleanOperation g "BooleanFragments" inputEntities toolEntities
    delete

theorem pfx_ocExtrude (g : OCGeometry) (inputEntity : OCEnt)
    (translationAxis : Vec3) :
    g.code <+: (g.extrude inputEntity translationAxis).1.code := by
  unfold OCGeometry.extrude
  split
  · exact List.prefix_refl _
  · exact List.prefix_append _ _

/-- C8: the statement log is append-only.  For every public builder
operation of the built-in session and the OpenCASCADE session — whether
it completes or fails — the statement log before the call is a prefix of
the statement log after the call; statements are only ever appended. -/
theorem claim_C8 :
    (∀ (g : Geometry) (e : Ent), g.code <+: (g.add e).1.code) ∧
    (∀ (g : Geometry) (x : Vec3) (lcar : Rat),
      g.code <+: (g.addPoint x lcar).1.code) ∧
    (∀ (g : Geometry) (a b : Ent), g.code <+: (g.addLine a b).1.code) ∧
    (∀ (g : Geometry) (cs : List Ent),
      g.code <+: (g.addLineLoop cs).1.code) ∧
    (∀ (g : Geometry) (ps : List Ent),
      g.code <+: (g.addEllipseArc ps).1.code) ∧
    (∀ (g : Geometry) (ll : Ent) (hs : List Ent),
      g.code <+: (g.addPlaneSurface ll hs).1.code) ∧
    (∀ (g : Geometry) (ll : String),
      g.code <+: (g.addRuledSurface ll).1.code) ∧
    (∀ (g : Geometry) (ss : List String),
      g.code <+: (g.addCompoundSurface ss).1.code) ∧
    (∀ (g : Geometry) (ss : List String),
      g.code <+: (g.addSurfaceLoop ss).1.code) ∧
    (∀ (g : Geometry) (sl : String),
      g.code <+: (g.addVolume sl).1.code) ∧
    (∀ (g : Geometry) (vs : List String),
      g.code <+: (g.addCompoundVolume vs).1.code) ∧
    (∀ (g : Geometry) (p : String) (label : Option String),
      g.code <+: (g.addPhysicalPoint p label).code) ∧
    (∀ (g : Geometry) (l : String) (label : Option String),
      g.code <+: (g.addPhysicalLine l label).code) ∧
    (∀ (g : Geometry) (s : String) (label : Option String),
      g.code <+: (g.addPhysicalSurface s label).code) ∧
    (∀ (g : Geometry) (v : String) (label : Option String),
      g.code <+: (g.addPhysicalVolume v label).code) ∧
    (∀ (g : Geometry) (ent : String) (t r p : Option Vec3)
        (a : Option String),
      g.code <+: (g.extrude ent t r p a).1.code) ∧
    (∀ (g : Geometry) (el fl nl : List String)
        (am hf hn ht rg th : Option Rat),
      g.code <+:
        (g.addBoundaryLayer el fl nl am hf hn ht rg th).1.code) ∧
    (∀ (g : Geometry) (fs : List String) (aggr : String),
      g.code <+: (g.addBackgroundField fs aggr).1.code) ∧
    (∀ (g : Geometry) (es : List String),
      g.code <+: (g.addArray es).1.code) ∧
    (∀ (g : Geometry) (s : String),
      g.code <+: (g.addComment s).code) ∧
    (∀ (g : Geometry) (s : String),
      g.code <+: (g.addRawCode s).code) ∧
    (∀ (g : Geometry) (l : List String),
      g.code <+: (g.addRawCodeMany l).code) ∧
    (∀ (g : Geometry) (X : List Vec3) (lcar : Rat) (holes : List Ent),
      g.code <+: (g.addPolygon X lcar holes).1.code) ∧
    (∀ (g : Geometry) (xmin xmax ymin ymax z lcar : Rat)
        (holes : List Ent),
      g.code <+:
        (g.addRectangle xmin xmax ymin ymax z lcar holes).1.code) ∧
    (∀ (g : Geometry) (x0 : Vec3) (radius lcar : Rat) (Rm : Mat3)
        (ns : Nat) (ms : Bool) (holes : List Ent),
      g.code <+: (g.addCircle x0 radius lcar Rm ns ms holes).1.code) ∧
    (∀ (g : Geometry) (x0 x1 y0 y1 z0 z1 lcar : Rat) (wv : Bool)
        (holes : List String) (label : Option String),
      g.code <+:
        (g.addBox x0 x1 y0 y1 z0 z1 lcar wv holes label).1.code) ∧
    (∀ (g : Geometry) (x0 radii : Vec3) (lcar : Rat) (wv : Bool)
        (holes : List String) (label : Option String),
      g.code <+:
        (g.addEllipsoid x0 radii lcar wv holes label).1.code) ∧
    (∀ (g : Geometry) (x0 : Vec3) (radius lcar : Rat) (wv : Bool)
        (holes : List String) (label : Option String),
      g.code <+: (g.addBall x0 radius lcar wv holes label).1.code) ∧
    (∀ (g : Geometry) (irad orad lcar : Rat) (Rm : Mat3) (x0 : Vec3)
        (label : Option String) (variant : String) (ns : Nat),
      g.code <+:
        (g.addTorus irad orad lcar Rm x0 label variant ns).1.code) ∧
    (∀ (g : Geometry) (orr irr len : Rat) (Rm : Mat3) (x0 : Vec3)
        (label : Option String) (lcar : Rat) (variant : String)
        (ns : Nat),
      g.code <+:
        (g.addPipe orr irr len Rm x0 label lcar variant ns).1.code) ∧
    (∀ (g : OCGeometry) (op : String) (ie te : List OCEnt) (d : Bool),
      g.code <+: (g.booleanOperation op ie te d).1.code) ∧
    (∀ (g : OCGeometry) (es : List OCEnt) (d : Bool),
      g.code <+: (g.booleanIntersection es d).1.code) ∧
    (∀ (g : OCGeometry) (es : List OCEnt) (d : Bool),
      g.code <+: (g.booleanUnion es d).1.code) ∧
    (∀ (g : OCGeometry) (ie te : List OCEnt) (d : Bool),
      g.code <+: (g.booleanDifference ie te d).1.code) ∧
    (∀ (g : OCGeometry) (ie te : List OCEnt) (d : Bool),
      g.code <+: (g.booleanFragments ie te d).1.code) ∧
    (∀ (g : OCGeometry) (e : OCEnt) (t : Vec3),
      g.code <+: (g.extrude e t).1.code) :=
  ⟨pfx_add, pfx_addPoint, pfx_addLine, pfx_addLineLoop,
   pfx_addEllipseArc, pfx_addPlaneSurface, pfx_addRuledSurface,
   pfx_addCompoundSurface, pfx_addSurfaceLoop, pfx_addVolume,
   pfx_addCompoundVolume, pfx_addPhysicalPoint, pfx_addPhysicalLine,
   pfx_addPhysicalSurface, pfx_addPhysicalVolume, pfx_extrude,
   pfx_addBoundaryLayer, pfx_addBackgroundField, pfx_addArray,
   pfx_addComment, pfx_addRawCode, pfx_addRawCodeMany, pfx_addPolygon,
   pfx_addRectangle, pfx_addCircle, pfx_addBox, pfx_addEllipsoid,
   pfx_addBall, pfx_addTorus, pfx_addPipe, pfx_booleanOperation,
   pfx_booleanIntersection, pfx_booleanUnion, pfx_booleanDifference,
   pfx_booleanFragments, pfx_ocExtrude⟩
